import Mathlib

/-!
# usbmuxd2: the Muxer's device registry, identity allocator and dispatch

A shallow embedding of `src/usbmuxd2/Muxer.cpp`.

* `std::shared_ptr<Device>` / `std::shared_ptr<Client>` handles are modelled by the
  object they point to together with its address (`ptr`).  `_devices` and `_clients`
  are `std::set`s of handles: their iteration order is the order of the addresses, an
  insert of an address that is already an element does not add an element, and an
  object that is an element is seen through the set with its current fields.
* `int` values (`_id`, `_newid`) are natural numbers; every value the code stores in
  them lies in `[0, INT_MAX]` (see `Inv`), so no operation on them overflows.
* Calls into collaborators (client sockets, device loops, libc, preflight) are taken
  from an environment `Env`; the calls the Muxer makes are recorded as `Event`s, in
  the order in which they are made.
* Locks are not modelled: every operation runs to completion on its own.
* The build modelled has Wi-Fi support and libimobiledevice compiled in
  (`HAVE_WIFI_MDNS`, `HAVE_LIBIMOBILEDEVICE`).
-/

namespace usbmuxd2

/-! ## Constants -/

/-- The C constant `INT_MAX` of a 32-bit `int`. -/
def INT_MAX : Nat := 2147483647

/-- `#define MAXID (INT_MAX/2)` -/
def MAXID : Nat := INT_MAX / 2

/-- `#define INVALID_ID (MAXID + 1)` -/
def INVALID_ID : Nat := MAXID + 1

/-! ## Data model -/

/-- `Device::mux_conn_type` -/
inductive mux_conn_type where
  | MUXCONN_USB
  | MUXCONN_WIFI
deriving DecidableEq, Repr

open mux_conn_type

/-- A `Device` object (with the members of its `USBDevice` / `WIFIDevice` subclass
that the Muxer reads). `ptr` is the address of the object, the identity of its
`shared_ptr` handle. -/
structure Device where
  ptr : Nat
  conntype : mux_conn_type
  id : Nat
  serial : String
  usb_location : Nat
  speed : Nat
  pid : Nat
  serviceName : String
  ipaddr : List String
deriving DecidableEq, Repr

/-- A `Client` object; `bundleID`, `progName` and `kLibUSBMuxVersion` are the members
of the `Client::cinfo` that `getClientInfo()` returns. -/
structure Client where
  ptr : Nat
  fd : Int
  number : Nat
  isListening : Bool
  bundleID : String
  progName : String
  kLibUSBMuxVersion : Nat
deriving DecidableEq, Repr

/-- A `plist_t` control document. -/
inductive plist where
  | string (s : String)
  | uint (n : Nat)
  | bool (b : Bool)
  | data (bytes : List Nat)
  | array (items : List plist)
  | dict (items : List (String × plist))

/-- A thrown `tihmstar::exception`. -/
structure exception where
  code : Int
  what : String
deriving DecidableEq, Repr

/-- Calls the Muxer makes into its collaborators. `send` is
`c->send_plist_pkt(tag, doc)` on the client at address `cli`; its last field records
which devices are elements of `_devices` at the moment of the call. -/
inductive Event where
  | send (cli : Nat) (tag : Nat) (doc : plist) (registered : List Device)
  | kill (cli : Nat)
  | preflight_device (serial : String) (id : Nat)
  | start_connect (dev : Nat) (dport : Nat) (cli : Nat)

/-- Outcomes of the calls into collaborators and the platform.

* `inet_addr s`: the `in_addr_t` value libc returns, as the host reads it
  (`0xFFFFFFFF` = `INADDR_NONE` when `s` does not parse);
* `inet_pton6 s`: the sixteen bytes of the `in6_addr` written by
  `inet_pton(AF_INET6, s, _)`, or `none` when it returns 0;
* `in6_align`: the alignment of `struct in6_addr`; `big_endian`: host byte order;
  `pad_byte`: the content of a padding byte of an object on the stack;
* `wifi_startLoop d`: the exception `WIFIDevice::startLoop` throws, if any;
* `dev_start_connect d dport cli`: the exception `Device::start_connect` throws, if any;
* `send_throws cli tag doc`: whether `Client::send_plist_pkt` throws;
* `client_startLoop c`: the exception `Client::startLoop` throws, if any. -/
structure Env where
  inet_addr : String → Nat
  inet_pton6 : String → Option (List Nat)
  in6_align : Nat
  big_endian : Bool
  pad_byte : Nat
  wifi_startLoop : Device → Option exception
  dev_start_connect : Device → Nat → Client → Option exception
  send_throws : Nat → Nat → plist → Bool
  client_startLoop : Client → Option exception := fun _ => none

/-- The state of a `Muxer`: `_devices`, `_clients` (both in iteration order),
`_doPreflight` and `_newid`. -/
structure Muxer where
  devices : List Device
  clients : List Client
  doPreflight : Bool
  newid : Nat
deriving DecidableEq, Repr

/-- `Muxer::Muxer(bool doPreflight)`: empty registries, `_newid(1)`. -/
def Muxer.init (doPreflight : Bool) : Muxer :=
  { devices := [], clients := [], doPreflight := doPreflight, newid := 1 }

/-! ## `std::set` of handles -/

/-- `_devices.insert(dev)`. The declaration of `_devices` is in `Muxer.hpp`; the calls
made on it (`insert(dev)`, `erase(d)`, and `contains(cli)` on `_clients`) are those of a
`std::set` of handles, which is ordered by address. The addresses are a field of the
objects and are not restricted: addresses that grow in the order of insertion give a set
iterated in insertion order. When the address is already an element nothing is added
(the element is the object `dev` itself). -/
def set_insert (dev : Device) : List Device → List Device
  | [] => [dev]
  | d :: rest =>
    if dev.ptr < d.ptr then dev :: d :: rest
    else if dev.ptr = d.ptr then dev :: rest
    else d :: set_insert dev rest

/-- The loop `for (auto d : _devices) if (d == dev) { _devices.erase(d); break; }`
and `_devices.erase(dev)`: the element at address `p` is removed. -/
def set_erase (p : Nat) : List Device → List Device
  | [] => []
  | d :: rest => if d.ptr = p then rest else d :: set_erase p rest

/-- The effect of the assignment `dev->_id = v` on the set, for the object at address
`p`: when that object is an element, the set shows its new `_id`. -/
def set_id (p : Nat) (v : Nat) : List Device → List Device
  | [] => []
  | d :: rest =>
    if d.ptr = p then { d with id := v } :: set_id p v rest else d :: set_id p v rest

/-! ## Queries -/

/-- `Muxer::id_for_device(uuid, type)`: the `_id` of the first device in iteration
order with that connection type and serial, 0 when there is none. -/
def id_for_device (uuid : String) (type : mux_conn_type) : List Device → Nat
  | [] => 0
  | dev :: rest =>
    if dev.conntype = type ∧ uuid = dev.serial then dev.id
    else id_for_device uuid type rest

/-- `Muxer::devices_cnt()` -/
def devices_cnt (m : Muxer) : Nat := m.devices.length

/-- `(((uint16_t)bus << 16) | address)` for `uint8_t bus, address`. -/
def usb_location_of (bus address : Nat) : Nat :=
  ((bus % 256) <<< 16) ||| (address % 256)

/-- `Muxer::have_usb_device(bus, address)` -/
def have_usb_device (bus address : Nat) : List Device → Bool
  | [] => false
  | dev :: rest =>
    if dev.conntype = MUXCONN_USB ∧ dev.usb_location = usb_location_of bus address then true
    else have_usb_device bus address rest

/-! ## Identity allocation -/

/-- `x & ~1` on a non-negative `int`. -/
def clear_bit0 (x : Nat) : Nat := x &&& 0xFFFFFFFE

/-- One traversal of `for (auto odev : _devices)` below the label `retryID`, started
with `_newid = newid`: `some n` when the loop runs to its end with `_newid = n`,
`none` when it leaves through `goto retryID` (after `_newid = 1`). -/
def scan_pass (newid : Nat) : List Device → Option Nat
  | [] => some newid
  | odev :: rest =>
    if odev.id >>> 1 = newid then
      if newid + 1 > MAXID then none else scan_pass (newid + 1) rest
    else scan_pass newid rest

/-- The code from the label `retryID` to the end of the loop: traversals are repeated
(from `_newid = 1`) as long as they leave through `goto retryID`. `fuel` bounds the
number of traversals; `none` when they are used up. -/
def retryID (devs : List Device) : Nat → Nat → Option Nat
  | 0, _ => none
  | fuel + 1, newid =>
    match scan_pass newid devs with
    | some n => some n
    | none => retryID devs fuel 1

/-! ## Control documents -/

/-- `plist_dict_set_item(dict, key, item)`: replaces the value of an existing key,
appends a new key otherwise. -/
def plist_dict_set_item (key : String) (item : plist) :
    List (String × plist) → List (String × plist)
  | [] => [(key, item)]
  | (k, v) :: rest =>
    if k = key then (k, item) :: rest else (k, v) :: plist_dict_set_item key item rest

/-- The bytes in memory of a `uint32_t` holding `x`. -/
def u32_bytes (E : Env) (x : Nat) : List Nat :=
  let le := [x % 256, x / 256 % 256, x / 65536 % 256, x / 16777216 % 256]
  if E.big_endian then le.reverse else le

/-- The sixteen bytes of `buf` in the IPv4 branch of `getDevicePlist`:
`((uint32_t*)buf)[0] = 0x0210; ((uint32_t*)buf)[1] = inet_addr(ipaddr)`. -/
def ipv4_blob (E : Env) (ipaddr : String) : List Nat :=
  u32_bytes E 0x0210 ++ u32_bytes E (E.inet_addr ipaddr) ++ List.replicate 8 0

/-- The offset of member `ip6` in `DataStruct` (two `uint8_t` members come first). -/
def DataStruct_ip6_offset (E : Env) : Nat :=
  let a := max 1 E.in6_align
  (2 + a - 1) / a * a

/-- `sizeof(DataStruct)` -/
def DataStruct_sizeof (E : Env) : Nat :=
  let a := max 1 E.in6_align
  (DataStruct_ip6_offset E + 16 + a - 1) / a * a

/-- The bytes of `data` in the IPv6 branch of `getDevicePlist`
(`.len = sizeof(DataStruct), .family = 0x1E`, then `ip6` as written by `inet_pton`),
`sizeof(data)` of them. -/
def ipv6_blob (E : Env) (ip6 : List Nat) : List Nat :=
  [DataStruct_sizeof E % 256, 0x1E]
    ++ List.replicate (DataStruct_ip6_offset E - 2) E.pad_byte
    ++ (ip6 ++ List.replicate 16 0).take 16
    ++ List.replicate (DataStruct_sizeof E - DataStruct_ip6_offset E - 16) E.pad_byte

/-- The loop `for (auto ipaddr : wifidev->_ipaddr)` of `getDevicePlist`: the value set
for `NetworkAddress`, `none` when the loop ends without setting it. -/
def network_address (E : Env) : List String → Option (List Nat)
  | [] => none
  | ipaddr :: rest =>
    if ':' ∉ ipaddr.data then
      some (ipv4_blob E ipaddr)
    else
      match E.inet_pton6 ipaddr with
      | none => network_address E rest
      | some ip6 => some (ipv6_blob E ip6)

/-- The dictionary `p_props` built by `getDevicePlist`. -/
def device_props (E : Env) (dev : Device) : List (String × plist) :=
  let p0 := plist_dict_set_item "DeviceID" (plist.uint dev.id) []
  let p1 :=
    match dev.conntype with
    | MUXCONN_USB =>
      plist_dict_set_item "ProductID" (plist.uint dev.pid)
        (plist_dict_set_item "LocationID" (plist.uint dev.usb_location)
          (plist_dict_set_item "ConnectionType" (plist.string "USB")
            (plist_dict_set_item "ConnectionSpeed" (plist.uint dev.speed) p0)))
    | MUXCONN_WIFI =>
      let q :=
        plist_dict_set_item "EscapedFullServiceName" (plist.string dev.serviceName)
          (plist_dict_set_item "ConnectionType" (plist.string "Network") p0)
      match network_address E dev.ipaddr with
      | some blob => plist_dict_set_item "NetworkAddress" (plist.data blob) q
      | none => q
  plist_dict_set_item "SerialNumber" (plist.string dev.serial) p1

/-- `Muxer::getDevicePlist(dev)` -/
def getDevicePlist (E : Env) (dev : Device) : plist :=
  plist.dict
    (plist_dict_set_item "Properties" (plist.dict (device_props E dev))
      (plist_dict_set_item "DeviceID" (plist.uint dev.id)
        (plist_dict_set_item "MessageType" (plist.string "Attached") [])))

/-- The document built by `notify_device_remove(deviceID)`. -/
def detached_plist (deviceID : Nat) : plist :=
  plist.dict
    (plist_dict_set_item "DeviceID" (plist.uint deviceID)
      (plist_dict_set_item "MessageType" (plist.string "Detached") []))

/-- The document built by `notify_device_paired(deviceID)`. -/
def paired_plist (deviceID : Nat) : plist :=
  plist.dict
    (plist_dict_set_item "DeviceID" (plist.uint deviceID)
      (plist_dict_set_item "MessageType" (plist.string "Paired") []))

/-! ## Notification -/

/-- The loop `for (auto c : _clients) if (c->_isListening) try c->send_plist_pkt(0, p_rsp)
catch (...)` shared by the three notifications: the sends made, in order. An
exception of a send is swallowed, the loop goes on. -/
def fan_out (doc : plist) (registered : List Device) : List Client → List Event
  | [] => []
  | c :: rest =>
    if c.isListening then Event.send c.ptr 0 doc registered :: fan_out doc registered rest
    else fan_out doc registered rest

/-- `Muxer::notify_device_add(dev)` -/
def notify_device_add (E : Env) (m : Muxer) (dev : Device) : List Event :=
  fan_out (getDevicePlist E dev) m.devices m.clients

/-- `Muxer::notify_device_remove(deviceID)` -/
def notify_device_remove (m : Muxer) (deviceID : Nat) : List Event :=
  fan_out (detached_plist deviceID) m.devices m.clients

/-- `Muxer::notify_device_paired(deviceID)` -/
def notify_device_paired (m : Muxer) (deviceID : Nat) : List Event :=
  fan_out (paired_plist deviceID) m.devices m.clients

/-! ## Devices -/

/-- `Muxer::delete_device(std::shared_ptr<Device> dev)`: the new state and the calls
made. -/
def delete_device (m : Muxer) (dev : Device) : Muxer × List Event :=
  let m1 := { m with devices := set_erase dev.ptr m.devices }
  (m1, notify_device_remove m1 dev.id)

/-- The loop of `Muxer::delete_device(uint8_t bus, uint8_t address)`: `devid` (initially
`INVALID_ID`) and the set after the loop. -/
def erase_usb_location (loc : Nat) : List Device → Nat × List Device
  | [] => (INVALID_ID, [])
  | dev :: rest =>
    if dev.conntype = MUXCONN_USB ∧ dev.usb_location = loc then (dev.id, rest)
    else
      let r := erase_usb_location loc rest
      (r.1, dev :: r.2)

/-- `Muxer::delete_device(uint8_t bus, uint8_t address)` -/
def delete_device_at (m : Muxer) (bus address : Nat) : Muxer × List Event :=
  let r := erase_usb_location (usb_location_of bus address) m.devices
  let m1 := { m with devices := r.2 }
  if r.1 ≠ INVALID_ID then (m1, notify_device_remove m1 r.1) else (m1, [])

/-- The other connection type:
`dev->_conntype == MUXCONN_USB ? MUXCONN_WIFI : MUXCONN_USB`. -/
def other_conntype (t : mux_conn_type) : mux_conn_type :=
  if t = MUXCONN_USB then MUXCONN_WIFI else MUXCONN_USB

/-- The value of `(dev->_conntype == Device::MUXCONN_WIFI)` as an `int`. -/
def wifi_flag (t : mux_conn_type) : Nat :=
  if t = MUXCONN_WIFI then 1 else 0

/-- What `add_device` has done when it returns: the state of the Muxer, the object
`dev` (with the `_id` assigned to it) and the calls made. -/
structure AddResult where
  muxer : Muxer
  dev : Device
  events : List Event

/-- The first part of `Muxer::add_device(dev)`, up to the `_newid << 1` assignment:
the value of `dev->_id` and of `_newid` after it, `none` when the loop at `retryID` does
not come to an end within `fuel` traversals. The first assignment to `dev->_id` is seen
by the loop when `dev` is already an element of `_devices`. -/
def alloc_id (fuel : Nat) (m : Muxer) (dev : Device) : Option (Nat × Nat) :=
  let id0 := clear_bit0 (id_for_device dev.serial (other_conntype dev.conntype) m.devices)
  if id0 = 0 then
    match retryID (set_id dev.ptr id0 m.devices) fuel m.newid with
    | some n => some (n <<< 1, n)
    | none => none
  else some (id0, m.newid)

/-- `Muxer::add_device(dev)`. `none`: the loop at `retryID` does not come to an end
within `fuel` traversals. -/
def add_device_fuel (fuel : Nat) (E : Env) (m : Muxer) (dev : Device) : Option AddResult :=
  match alloc_id fuel m dev with
  | none => none
  | some (id1, newid) =>
    let dev2 := { dev with id := id1 ||| wifi_flag dev.conntype }
    let m2 := { m with devices := set_insert dev2 m.devices, newid := newid }
    match (if dev2.conntype = MUXCONN_WIFI then E.wifi_startLoop dev2 else none) with
    | some _ =>
      let r := delete_device m2 dev2
      some { muxer := r.1, dev := dev2, events := r.2 }
    | none =>
      let pre :=
        if dev2.conntype = MUXCONN_USB ∧ m2.doPreflight = true then
          [Event.preflight_device dev2.serial dev2.id]
        else []
      some { muxer := m2, dev := dev2, events := pre ++ notify_device_add E m2 dev2 }

/-- `Muxer::add_device(dev)`. Two traversals at `retryID` are all that can be needed:
a third one would repeat the second (`retryID_fuel`). -/
def add_device (E : Env) (m : Muxer) (dev : Device) : Option AddResult :=
  add_device_fuel 2 E m dev

/-! ## Connection -/

/-- How `Muxer::start_connect` fails: through its own `reterror` (no device with that
id), or with the exception of `Device::start_connect`, thrown on. -/
inductive ConnectError where
  | no_such_device
  | rethrown (e : exception)
deriving DecidableEq, Repr

/-- The loop of `Muxer::start_connect`: the first device with `d->_id == device_id`. -/
def find_device (device_id : Int) : List Device → Option Device
  | [] => none
  | d :: rest => if (d.id : Int) = device_id then some d else find_device device_id rest

/-- `Muxer::start_connect(device_id, dport, cli)`: how it ends, the state afterwards and
the calls made. -/
def start_connect (E : Env) (m : Muxer) (device_id : Int) (dport : Nat) (cli : Client) :
    Except ConnectError Unit × Muxer × List Event :=
  match find_device device_id m.devices with
  | none => (Except.error ConnectError.no_such_device, m, [])
  | some dev =>
    match E.dev_start_connect dev dport cli with
    | some e => (Except.error (ConnectError.rethrown e), m, [Event.start_connect dev.ptr dport cli.ptr])
    | none => (Except.ok (), m, [Event.start_connect dev.ptr dport cli.ptr])


/-! ## Reachable states -/

/-- The states a Muxer can be in: those reached from a freshly constructed one by calls
of `add_device` (that return), `delete_device(dev)` and `delete_device(bus, address)`,
with any outcome of the collaborators at every call. Operations on the client registry
leave `_devices` and `_newid` alone: they are covered by `clients`. -/
inductive Reachable : Muxer → Prop where
  | init (doPreflight : Bool) : Reachable (Muxer.init doPreflight)
  | add_device (E : Env) (m : Muxer) (dev : Device) (r : AddResult) :
      Reachable m → add_device E m dev = some r → Reachable r.muxer
  | delete_device (m : Muxer) (dev : Device) :
      Reachable m → Reachable (delete_device m dev).1
  | delete_device_at (m : Muxer) (bus address : Nat) :
      Reachable m → Reachable (delete_device_at m bus address).1
  | clients (m : Muxer) (cs : List Client) :
      Reachable m → Reachable { m with clients := cs }

/-- The identity encoding of one device: `_id = (slot << 1) | flag` with
`1 ≤ slot ≤ MAXID` and `flag` the Wi-Fi flag of its connection type. -/
def wf_id (d : Device) : Prop :=
  1 ≤ d.id / 2 ∧ d.id / 2 ≤ MAXID ∧ d.id % 2 = wifi_flag d.conntype

instance (d : Device) : Decidable (wf_id d) :=
  inferInstanceAs (Decidable (1 ≤ d.id / 2 ∧ d.id / 2 ≤ MAXID ∧ d.id % 2 = wifi_flag d.conntype))

/-- The invariant of the identity allocator. -/
def Inv (m : Muxer) : Prop :=
  1 ≤ m.newid ∧ m.newid ≤ MAXID ∧ ∀ d ∈ m.devices, wf_id d

instance (m : Muxer) : Decidable (Inv m) :=
  inferInstanceAs (Decidable (1 ≤ m.newid ∧ m.newid ≤ MAXID ∧ ∀ d ∈ m.devices, wf_id d))


/-! ## Concrete scenarios -/

/-- An environment in which no collaborator fails (and no address parses). -/
def env_ok : Env :=
  { inet_addr := fun _ => 0xFFFFFFFF
    inet_pton6 := fun _ => none
    in6_align := 4
    big_endian := false
    pad_byte := 0
    wifi_startLoop := fun _ => none
    dev_start_connect := fun _ _ _ => none
    send_throws := fun _ _ _ => false }

/-- An environment in which every Wi-Fi device fails to start its loop. -/
def env_wifi_fails : Env :=
  { env_ok with wifi_startLoop := fun _ => some { code := 1, what := "startLoop" } }

/-- The USB device of scenario 1: serial "ABC" at bus 1, address 5. -/
def usb_ABC : Device :=
  { ptr := 100, conntype := MUXCONN_USB, id := 0, serial := "ABC", usb_location := 0x10005,
    speed := 480, pid := 0x12a8, serviceName := "", ipaddr := [] }

/-- The Wi-Fi device of scenario 3: the same serial, seen on the network. -/
def wifi_ABC : Device :=
  { ptr := 200, conntype := MUXCONN_WIFI, id := 0, serial := "ABC", usb_location := 0,
    speed := 0, pid := 0, serviceName := "aa:bb:cc:dd:ee:ff@fe80::1", ipaddr := ["192.0.2.7"] }

/-- A listening client C1. -/
def client_C1 : Client :=
  { ptr := 500, fd := 7, number := 1, isListening := true, bundleID := "com.example.tool",
    progName := "tool", kLibUSBMuxVersion := 3 }

/-- The Muxer after scenario 1: the USB device registered with id 2. -/
def after_usb : Muxer :=
  { devices := [{ usb_ABC with id := 2 }], clients := [], doPreflight := false, newid := 1 }

/-- The Muxer after scenario 3: USB id 2 and Wi-Fi id 3. -/
def after_usb_wifi : Muxer :=
  { devices := [{ usb_ABC with id := 2 }, { wifi_ABC with id := 3 }], clients := [],
    doPreflight := false, newid := 1 }


/-- `add_device` called for each device of a list in turn: the state afterwards and the
ids assigned, in the order of the calls (`none` when a call does not return). -/
def add_devices (E : Env) : Muxer → List Device → Option (Muxer × List Nat)
  | m, [] => some (m, [])
  | m, dev :: rest =>
    match add_device E m dev with
    | none => none
    | some r =>
      match add_devices E r.muxer rest with
      | none => none
      | some (m', ids) => some (m', r.dev.id :: ids)


/-- `ReachableUnique n m`: the state `m` is reached from a freshly constructed Muxer by
`n` calls of `add_device`, each for a device that is not registered and whose serial and
connection type no registered device has, and any number of calls of
`delete_device(dev)` and `delete_device(bus, address)`. -/
inductive ReachableUnique : Nat → Muxer → Prop where
  | init (doPreflight : Bool) : ReachableUnique 0 (Muxer.init doPreflight)
  | add_device (E : Env) (m : Muxer) (dev : Device) (r : AddResult) (n : Nat) :
      ReachableUnique n m →
      (∀ d ∈ m.devices, d.ptr ≠ dev.ptr) →
      (∀ d ∈ m.devices, ¬ (d.serial = dev.serial ∧ d.conntype = dev.conntype)) →
      add_device E m dev = some r → ReachableUnique (n + 1) r.muxer
  | delete_device (m : Muxer) (dev : Device) (n : Nat) :
      ReachableUnique n m → ReachableUnique n (delete_device m dev).1
  | delete_device_at (m : Muxer) (bus address : Nat) (n : Nat) :
      ReachableUnique n m → ReachableUnique n (delete_device_at m bus address).1
  | clients (m : Muxer) (cs : List Client) (n : Nat) :
      ReachableUnique n m → ReachableUnique n { m with clients := cs }

/-- The registered devices have pairwise different serial or connection type. -/
def unique_pairs (L : List Device) : Prop :=
  L.Pairwise (fun a b => ¬ (a.serial = b.serial ∧ a.conntype = b.conntype))

/-- What holds of the allocator as long as `_newid` has not wrapped: no slot above
`_newid` is in use, `_newid` is at most the number of `add_device` calls made, and two
devices in one slot have the same serial. -/
def InvUnique (n : Nat) (m : Muxer) : Prop :=
  Inv m ∧ unique_pairs m.devices ∧
  (∀ d ∈ m.devices, d.id / 2 ≤ m.newid) ∧
  ((n = 0 ∧ m.newid = 1 ∧ m.devices = []) ∨ (1 ≤ n ∧ m.newid ≤ n)) ∧
  (∀ a ∈ m.devices, ∀ b ∈ m.devices, a.id / 2 = b.id / 2 → a.serial = b.serial)

/-- The Muxer after a USB device, a Wi-Fi device and a second USB device, all with
serial "ABC", have been added. -/
def after_second_usb : Muxer :=
  { devices := [{ usb_ABC with id := 2 }, { wifi_ABC with id := 3 },
      { usb_ABC with ptr := 300, id := 2 }],
    clients := [], doPreflight := false, newid := 1 }

/-- The Muxer after two USB devices with serial "ABC" have been added: the first is
registered with id 2, the second (a different object) with id 4. -/
def two_usb_ABC : Muxer :=
  { devices := [{ usb_ABC with id := 2 }, { usb_ABC with ptr := 300, id := 4 }],
    clients := [], doPreflight := false, newid := 2 }


/-! ## The wrap of `_newid` -/

/-- A USB device with serial "A", at a higher address than `wrap_B`. -/
def wrap_A : Device :=
  { ptr := 20, conntype := MUXCONN_USB, id := 0, serial := "A", usb_location := 0x10001,
    speed := 480, pid := 0x12a8, serviceName := "", ipaddr := [] }

/-- A USB device with serial "B", at a lower address than `wrap_A`. -/
def wrap_B : Device :=
  { ptr := 10, conntype := MUXCONN_USB, id := 0, serial := "B", usb_location := 0x10002,
    speed := 480, pid := 0x12a8, serviceName := "", ipaddr := [] }

/-- Two more USB devices, with serials "X" and "Y", plugged in and out in turn. -/
def wrap_dev (b : Bool) : Device :=
  { ptr := if b then 30 else 40, conntype := MUXCONN_USB, id := 0,
    serial := if b then "X" else "Y", usb_location := if b then 0x10003 else 0x10004,
    speed := 480, pid := 0x12a8, serviceName := "", ipaddr := [] }

/-- "B" registered in slot 2 and "A" in slot 1 (in this order of iteration), one of "X"
and "Y" in slot `k`, and `_newid = k`. -/
def wrap_state (k : Nat) (b : Bool) : Muxer :=
  { devices := [{ wrap_B with id := 4 }, { wrap_A with id := 2 }, { wrap_dev b with id := 2 * k }],
    clients := [], doPreflight := false, newid := k }

/-- The state after `_newid` has wrapped: the device added last has the id of "B". -/
def wrap_final (b : Bool) : Muxer :=
  { devices :=
      if b then
        [{ wrap_B with id := 4 }, { wrap_A with id := 2 }, { wrap_dev true with id := 2 * MAXID },
          { wrap_dev false with id := 4 }]
      else
        [{ wrap_B with id := 4 }, { wrap_A with id := 2 }, { wrap_dev true with id := 4 },
          { wrap_dev false with id := 2 * MAXID }],
    clients := [], doPreflight := false, newid := 2 }


/-! ## Reading the record of calls -/

/-- The sends made to the client at address `cli`, in order: tag, document and the
devices registered at the moment of the send. -/
def sends_to (cli : Nat) : List Event → List (Nat × plist × List Device)
  | [] => []
  | Event.send c tag doc registered :: rest =>
    if c = cli then (tag, doc, registered) :: sends_to cli rest else sends_to cli rest
  | _ :: rest => sends_to cli rest

/-- `plist_dict_get_item(dict, key)` -/
def plist_dict_get_item (key : String) : plist → Option plist
  | plist.dict items => items.lookup key
  | _ => none

/-- The clients of a `std::set` are distinct objects. -/
def distinct_clients (m : Muxer) : Prop :=
  (m.clients.map (fun c => c.ptr)).Nodup

instance (m : Muxer) : Decidable (distinct_clients m) :=
  inferInstanceAs (Decidable (m.clients.map (fun (c : Client) => c.ptr)).Nodup)

/-- A Muxer with the listening client C1 and no device. -/
def listening_empty : Muxer :=
  { devices := [], clients := [client_C1], doPreflight := false, newid := 1 }

/-- Scenario 1 with the listening client C1: USB id 2 at (1,5). -/
def listening_usb : Muxer :=
  { devices := [{ usb_ABC with id := 2 }], clients := [client_C1], doPreflight := false,
    newid := 1 }

/-- Scenario 3 with the listening client C1: USB id 2 at (1,5) and Wi-Fi id 3. -/
def listening_usb_wifi : Muxer :=
  { devices := [{ usb_ABC with id := 2 }, { wifi_ABC with id := 3 }], clients := [client_C1],
    doPreflight := false, newid := 1 }

/-- A Muxer with the listening client C1 and one USB device at (1,5) whose slot is
`536870912`, so that its id is `1073741824`. -/
def listening_usb_slot_2_29 : Muxer :=
  { devices := [{ usb_ABC with id := 1073741824 }], clients := [client_C1],
    doPreflight := false, newid := 536870912 }

/-! ## Sends and their failures -/

/-- The exception `Client::send_plist_pkt` throws when it fails (what it carries is
not modelled). -/
def send_exception : exception :=
  { code := 0, what := "send_plist_pkt" }

/-- `c->send_plist_pkt(tag, doc)`: the exception it throws, if any, and the call
recorded. -/
def send_plist_pkt (E : Env) (c : Client) (tag : Nat) (doc : plist)
    (registered : List Device) : Option exception × List Event :=
  (if E.send_throws c.ptr tag doc = true then some send_exception else none,
    [Event.send c.ptr tag doc registered])

/-- `try { ... } catch (...) { }` around a call: no exception leaves the statement, the
calls made stay made. -/
def swallow (r : Option exception × List Event) : List Event := r.2

/-- The loop of the three notifications, with the outcome of every send spelled out:
`try { c->send_plist_pkt(0, p_rsp); } catch (...) { }` for every listening client. The
first component is the exception that leaves the loop, if any. -/
def fan_out_try (E : Env) (doc : plist) (registered : List Device) :
    List Client → Option exception × List Event
  | [] => (none, [])
  | c :: rest =>
    if c.isListening then
      let ev := swallow (send_plist_pkt E c 0 doc registered)
      let r := fan_out_try E doc registered rest
      (r.1, ev ++ r.2)
    else fan_out_try E doc registered rest

/-- The loop of `Muxer::notify_alldevices`: for every device,
`try { cli->send_plist_pkt(0, getDevicePlist(d)); } catch (...) { }`. The first
component is the exception that leaves the loop, if any. -/
def notify_alldevices_loop (E : Env) (cli : Client) (registered : List Device) :
    List Device → Option exception × List Event
  | [] => (none, [])
  | d :: rest =>
    let ev := swallow (send_plist_pkt E cli 0 (getDevicePlist E d) registered)
    let r := notify_alldevices_loop E cli registered rest
    (r.1, ev ++ r.2)

/-- `Muxer::notify_alldevices(cli)`: the exception that leaves it, if any, the state
afterwards and the calls made. -/
def notify_alldevices (E : Env) (m : Muxer) (cli : Client) :
    Option exception × Muxer × List Event :=
  if cli.isListening = false then (none, m, [])
  else
    let r := notify_alldevices_loop E cli m.devices m.devices
    (r.1, m, r.2)

/-! ## Control responses -/

/-- The loop of `Muxer::send_deviceList`:
`plist_array_append_item(p_devarr, getDevicePlist(dev))` for every device. -/
def device_list_items (E : Env) : List Device → List plist
  | [] => []
  | dev :: rest => getDevicePlist E dev :: device_list_items E rest

/-- `Muxer::send_deviceList(cli, tag)`: the exception that leaves it, if any, the state
afterwards and the calls made. -/
def send_deviceList (E : Env) (m : Muxer) (cli : Client) (tag : Nat) :
    Option exception × Muxer × List Event :=
  let p_devarr := device_list_items E m.devices
  let p_rsp := plist_dict_set_item "DeviceList" (plist.array p_devarr) []
  let r := send_plist_pkt E cli tag (plist.dict p_rsp) m.devices
  (r.1, m, r.2)

/-- `Muxer::getClientPlist(cli)` -/
def getClientPlist (cli : Client) : plist :=
  let idstring := (toString cli.number ++ "-") ++ cli.progName
  plist.dict
    (plist_dict_set_item "kLibUSBMuxVersion" (plist.uint cli.kLibUSBMuxVersion)
      (plist_dict_set_item "ProgName" (plist.string cli.progName)
        (plist_dict_set_item "ID String" (plist.string idstring)
          (plist_dict_set_item "ConnType" (plist.uint 0)
            (plist_dict_set_item "BundleID" (plist.string cli.bundleID)
              (plist_dict_set_item "Blacklisted" (plist.bool false) []))))))

/-- The loop of `Muxer::send_listenerList`:
`plist_array_append_item(p_cliarr, getClientPlist(c))` for every client. -/
def listener_list_items : List Client → List plist
  | [] => []
  | c :: rest => getClientPlist c :: listener_list_items rest

/-- `Muxer::send_listenerList(cli, tag)`: the exception that leaves it, if any, the
state afterwards and the calls made. -/
def send_listenerList (E : Env) (m : Muxer) (cli : Client) (tag : Nat) :
    Option exception × Muxer × List Event :=
  let p_cliarr := listener_list_items m.clients
  let p_rsp := plist_dict_set_item "ListenerList" (plist.array p_cliarr) []
  let r := send_plist_pkt E cli tag (plist.dict p_rsp) m.devices
  (r.1, m, r.2)

/-! ## Clients -/

/-- `_clients.insert(cli)`: as `set_insert`, for the set of clients. -/
def clients_insert (cli : Client) : List Client → List Client
  | [] => [cli]
  | c :: rest =>
    if cli.ptr < c.ptr then cli :: c :: rest
    else if cli.ptr = c.ptr then cli :: rest
    else c :: clients_insert cli rest

/-- `_clients.erase(cli)`: the element at address `p` is removed. -/
def clients_erase (p : Nat) : List Client → List Client
  | [] => []
  | c :: rest => if c.ptr = p then rest else c :: clients_erase p rest

/-- `_clients.contains(cli)` -/
def clients_contains (p : Nat) : List Client → Bool
  | [] => false
  | c :: rest => if c.ptr = p then true else clients_contains p rest

/-- `Muxer::delete_client(std::shared_ptr<Client> cli)`: the state afterwards and the
calls made. -/
def delete_client (m : Muxer) (cli : Client) : Muxer × List Event :=
  if clients_contains cli.ptr m.clients = true then
    ({ m with clients := clients_erase cli.ptr m.clients }, [Event.kill cli.ptr])
  else (m, [])

/-- The loop of `Muxer::delete_client(int cli_fd)`: the client erased (the first one in
iteration order with that `_fd`), if any, and the set after the loop. -/
def erase_client_fd (cli_fd : Int) : List Client → Option Client × List Client
  | [] => (none, [])
  | c :: rest =>
    if c.fd = cli_fd then (some c, rest)
    else
      let r := erase_client_fd cli_fd rest
      (r.1, c :: r.2)

/-- `Muxer::delete_client(int cli_fd)`: the state afterwards and the calls made. -/
def delete_client_fd (m : Muxer) (cli_fd : Int) : Muxer × List Event :=
  let r := erase_client_fd cli_fd m.clients
  match r.1 with
  | some c => ({ m with clients := r.2 }, [Event.kill c.ptr])
  | none => ({ m with clients := r.2 }, [])

/-- `Muxer::add_client(cli)`: the exception that leaves it, if any, the state afterwards
and the calls made. -/
def add_client (E : Env) (m : Muxer) (cli : Client) :
    Option exception × Muxer × List Event :=
  let m1 := { m with clients := clients_insert cli m.clients }
  match E.client_startLoop cli with
  | some e =>
    let r := delete_client m1 cli
    (some e, r.1, r.2)
  | none => (none, m1, [])

/-- The clients `kill()` is called on, in order. -/
def kills_of : List Event → List Nat
  | [] => []
  | Event.kill c :: rest => c :: kills_of rest
  | _ :: rest => kills_of rest

/-! ## Wi-Fi devices by MAC address -/

/-- `s.find("@")`: the position of the first '@', `none` for `std::string::npos`. -/
def find_at : List Char → Option Nat
  | [] => none
  | ch :: rest =>
    if ch = '@' then some 0
    else
      match find_at rest with
      | some n => some (n + 1)
      | none => none

/-- `s.substr(0, n)`: the first `n` characters, all of them for `npos`. -/
def substr0 (s : List Char) : Option Nat → List Char
  | none => s
  | some n => s.take n

/-- `Muxer::have_wifi_device(macaddr)` -/
def have_wifi_device (macaddr : String) : List Device → Bool
  | [] => false
  | dev :: rest =>
    if dev.conntype = MUXCONN_WIFI ∧
        String.mk (substr0 dev.serviceName.data (find_at dev.serviceName.data)) = macaddr then
      true
    else have_wifi_device macaddr rest

/-! ## More concrete scenarios -/

/-- A client C2 that is not listening. -/
def client_C2 : Client :=
  { ptr := 600, fd := 8, number := 2, isListening := false, bundleID := "com.example.other",
    progName := "other", kLibUSBMuxVersion := 3 }

/-- A second listening client C3. -/
def client_C3 : Client :=
  { ptr := 700, fd := 9, number := 42, isListening := true, bundleID := "com.example.third",
    progName := "third", kLibUSBMuxVersion := 3 }

/-- Scenario 3 with the clients C1 (listening), C2 (not listening) and C3 (listening). -/
def three_clients : Muxer :=
  { devices := [{ usb_ABC with id := 2 }, { wifi_ABC with id := 3 }],
    clients := [client_C1, client_C2, client_C3], doPreflight := false, newid := 1 }

/-- An environment in which every send to a client fails. -/
def env_send_fails : Env :=
  { env_ok with send_throws := fun _ _ _ => true }

/-- An environment in which the loop of a client does not start. -/
def env_client_fails : Env :=
  { env_ok with client_startLoop := fun _ => some { code := 2, what := "startLoop" } }

/-- The textual form `a.b.c.d` of an IPv4 address. -/
def dotted_quad (a b c d : Nat) : String :=
  toString a ++ "." ++ toString b ++ "." ++ toString c ++ "." ++ toString d

/-- An environment of a little-endian host with 4-byte alignment of `in6_addr`, in which
libc parses "192.0.2.7" and "fe80::1" and no other address. -/
def env_parse : Env :=
  { env_ok with
    inet_addr := fun s => if s = "192.0.2.7" then 0x070200C0 else 0xFFFFFFFF
    inet_pton6 := fun s =>
      if s = "fe80::1" then some [0xfe, 0x80, 0, 0, 0, 0, 0, 0, 0, 0, 0, 0, 0, 0, 0, 1]
      else none }

/-- A Wi-Fi device whose first address looks like IPv4 and does not parse, and whose
second address is a valid IPv6 address. -/
def wifi_bad_v4 : Device :=
  { wifi_ABC with id := 3, ipaddr := ["999.1.1.1", "fe80::1"] }

/-- A Wi-Fi device whose first address looks like IPv6 and does not parse, and whose
second address is a valid IPv6 address. -/
def wifi_bad_v6 : Device :=
  { wifi_ABC with id := 3, ipaddr := ["fe80::zz", "fe80::1"] }

/-- A Wi-Fi device with one valid IPv6 address. -/
def wifi_v6 : Device :=
  { wifi_ABC with id := 3, ipaddr := ["fe80::1"] }

/-! ## The scan at `retryID` on a registry in any order -/

/-- "B" registered in slot 2 and "A" in slot 1, iterated in this order, with
`_newid = 1`. -/
def two_slots_reversed : Muxer :=
  { devices := [{ wrap_B with id := 4 }, { wrap_A with id := 2 }], clients := [],
    doPreflight := false, newid := 1 }

/-! ## The Wi-Fi manager: handles to remove -/

/-- The members of `WIFIDeviceManager` that the removal in `loopEvent` works on:
`_resolveClients` (the handles, `DNSServiceRef` values), `_pfds` (the `fd` of every poll
entry, in order) and `_removeClients`. -/
structure WIFIDeviceManager where
  resolveClients : List Nat
  pfds : List Int
  removeClients : List Nat
deriving DecidableEq, Repr

/-- `std::remove(v.begin(), v.end(), rc)`: the content of the vector afterwards and the
position returned. The elements different from `rc` are moved to the front, in order;
the positions from the one returned on are not written to and hold what they held
before (libstdc++, libc++; for the standard their values are unspecified). -/
def std_remove (v : List Nat) (rc : Nat) : List Nat × Nat :=
  let kept := v.filter (fun x => x ≠ rc)
  (kept ++ v.drop kept.length, kept.length)

/-- `_pfds.erase(iter)` for `iter = std::find_if(_pfds.begin(), _pfds.end(), a.fd == rcfd)`:
the first entry with that fd is erased; `none` when there is none
(`assert(iter != _pfds.end())` fails). -/
def erase_pfd (rcfd : Int) : List Int → Option (List Int)
  | [] => none
  | fd :: rest =>
    if fd = rcfd then some rest
    else
      match erase_pfd rcfd rest with
      | some r => some (fd :: r)
      | none => none

/-- The body of the loop `for (auto &rc : _removeClients)` in `loopEvent`, on
`_resolveClients`, `_pfds` and the handles passed to `DNSServiceRefDeallocate` so far.
`sockfd` is `DNSServiceRefSockFD`. `none`: the assertion fails. -/
def remove_client (sockfd : Nat → Int) (rc : Nat) (st : List Nat × List Int × List Nat) :
    Option (List Nat × List Int × List Nat) :=
  let r := std_remove st.1 rc
  if r.2 ≠ r.1.length then
    match r.1[r.2]? with
    | none => none
    | some tgt =>
      let resolveClients := r.1.take r.2
      match erase_pfd (sockfd tgt) st.2.1 with
      | none => none
      | some pfds => some (resolveClients, pfds, st.2.2 ++ [tgt])
  else some (r.1, st.2.1, st.2.2)

/-- The loop `for (auto &rc : _removeClients)` of `loopEvent`. -/
def remove_clients (sockfd : Nat → Int) :
    List Nat → List Nat × List Int × List Nat → Option (List Nat × List Int × List Nat)
  | [], st => some st
  | rc :: rest, st =>
    match remove_client sockfd rc st with
    | none => none
    | some st1 => remove_clients sockfd rest st1

/-- The removal of `loopEvent` (the loop over `_removeClients` and
`_removeClients.clear()`): the manager afterwards and the handles passed to
`DNSServiceRefDeallocate`, in order; `none` when the assertion fails. -/
def drain_removeClients (sockfd : Nat → Int) (mgr : WIFIDeviceManager) :
    Option (WIFIDeviceManager × List Nat) :=
  match remove_clients sockfd mgr.removeClients (mgr.resolveClients, mgr.pfds, []) with
  | none => none
  | some st =>
    some ({ resolveClients := st.1, pfds := st.2.1, removeClients := [] }, st.2.2)

/-- `DNSServiceRefSockFD` in the scenarios: handle `h` has the socket `10 + h`. -/
def sockfd_10 (h : Nat) : Int := 10 + h

/-- A pool of three handles 1, 2, 3, each with its poll entry (after the entry of the
browse handle, fd 5); handle 1 is to be removed. -/
def pool_three : WIFIDeviceManager :=
  { resolveClients := [1, 2, 3], pfds := [5, 11, 12, 13], removeClients := [1] }

/-- One device in discovery: the resolve handle 1 and the getaddr handle 2 made from
it; the getaddr handle is finalized, both are to be removed, the getaddr handle
first. -/
def pool_one_device : WIFIDeviceManager :=
  { resolveClients := [1, 2], pfds := [5, 11, 12], removeClients := [2, 1] }

/-- Two devices in discovery: resolve handles 1 and 2, getaddr handles 3 (from 1) and
4 (from 2); the getaddr handle 3 is finalized, 3 and 1 are to be removed. -/
def pool_two_devices : WIFIDeviceManager :=
  { resolveClients := [1, 2, 3, 4], pfds := [5, 11, 12, 13, 14], removeClients := [3, 1] }

/-! # Theorems -/


/-! ## Arithmetic of the identity encoding -/

theorem shr1 (n : Nat) : n >>> 1 = n / 2 := by
  simp [Nat.shiftRight_eq_div_pow]

theorem shl1 (n : Nat) : n <<< 1 = 2 * n := by
  simp [Nat.shiftLeft_eq, Nat.mul_comm]

theorem clear_bit0_eq (x : Nat) : clear_bit0 x = 2 * ((x / 2) % 2147483648) := by
  unfold clear_bit0
  have h1 : (x &&& 0xFFFFFFFE) / 2 = (x / 2) % 2147483648 := by
    rw [Nat.and_div_two]
    have : (0xFFFFFFFE : Nat) / 2 = 2 ^ 31 - 1 := by norm_num
    rw [this, Nat.and_pow_two_sub_one_eq_mod]
  have h2 : (x &&& 0xFFFFFFFE) % 2 = 0 := by
    rcases Nat.mod_two_eq_zero_or_one (x &&& 0xFFFFFFFE) with h | h
    · exact h
    · rw [Nat.and_mod_two_eq_one] at h
      exact absurd h.2 (by norm_num)
  omega

theorem clear_bit0_of_le {x : Nat} (h : x / 2 ≤ MAXID) : clear_bit0 x = 2 * (x / 2) := by
  rw [clear_bit0_eq]
  have : MAXID = 1073741823 := by decide
  rw [Nat.mod_eq_of_lt (by omega)]

theorem or_flag (k : Nat) (t : mux_conn_type) : (2 * k) ||| wifi_flag t = 2 * k + wifi_flag t := by
  have hb : wifi_flag t < 2 ^ 1 := by
    unfold wifi_flag; split <;> decide
  have := Nat.mul_add_lt_is_or hb k
  simpa using this.symm

theorem wifi_flag_le (t : mux_conn_type) : wifi_flag t ≤ 1 := by
  unfold wifi_flag; split <;> decide


/-! ## The set operations -/

theorem set_erase_sublist (p : Nat) (L : List Device) : (set_erase p L).Sublist L := by
  induction L with
  | nil => exact List.Sublist.slnil
  | cons d rest ih =>
    unfold set_erase
    split
    · exact List.sublist_cons_self d rest
    · exact ih.cons₂ d

theorem erase_usb_location_sublist (loc : Nat) (L : List Device) :
    (erase_usb_location loc L).2.Sublist L := by
  induction L with
  | nil => exact List.Sublist.slnil
  | cons d rest ih =>
    unfold erase_usb_location
    split
    · exact List.sublist_cons_self d rest
    · exact ih.cons₂ d

theorem mem_set_insert {x d : Device} {L : List Device} (h : d ∈ set_insert x L) :
    d = x ∨ d ∈ L := by
  induction L with
  | nil => simp [set_insert] at h; exact Or.inl h
  | cons e rest ih =>
    unfold set_insert at h
    split at h
    · simp only [List.mem_cons] at h ⊢; tauto
    · split at h
      · simp only [List.mem_cons] at h ⊢; tauto
      · simp only [List.mem_cons] at h ⊢
        rcases h with h | h
        · exact Or.inr (Or.inl h)
        · rcases ih h with h | h
          · exact Or.inl h
          · exact Or.inr (Or.inr h)

theorem self_mem_set_insert (x : Device) (L : List Device) : x ∈ set_insert x L := by
  induction L with
  | nil => simp [set_insert]
  | cons e rest ih =>
    unfold set_insert
    split
    · simp
    · split
      · simp
      · simp [ih]

theorem set_id_of_not_mem {p v : Nat} {L : List Device} (h : ∀ d ∈ L, d.ptr ≠ p) :
    set_id p v L = L := by
  induction L with
  | nil => rfl
  | cons e rest ih =>
    have he : e.ptr ≠ p := h e (List.mem_cons_self _ _)
    have hr : ∀ d ∈ rest, d.ptr ≠ p := fun d hd => h d (List.mem_cons_of_mem _ hd)
    simp [set_id, he, ih hr]

/-! ## The loop at `retryID` -/

theorem scan_pass_bounds {L : List Device} {n k : Nat} (h : scan_pass n L = some k)
    (hn : n ≤ MAXID) : n ≤ k ∧ k ≤ MAXID := by
  induction L generalizing n with
  | nil =>
    simp [scan_pass] at h
    omega
  | cons d rest ih =>
    unfold scan_pass at h
    split at h
    · split at h
      · exact absurd h (by simp)
      · have := ih h (by omega)
        omega
    · exact ih h hn

theorem retryID_bounds {L : List Device} {fuel n k : Nat} (h : retryID L fuel n = some k)
    (h1 : 1 ≤ n) (hn : n ≤ MAXID) : 1 ≤ k ∧ k ≤ MAXID := by
  induction fuel generalizing n with
  | zero => simp [retryID] at h
  | succ f ih =>
    unfold retryID at h
    split at h
    · rename_i j hj
      cases h
      have := scan_pass_bounds hj hn
      omega
    · exact ih h (le_refl 1) (by decide)

theorem id_for_device_eq (s : String) (t : mux_conn_type) (L : List Device) :
    (id_for_device s t L = 0 ∧ ∀ d ∈ L, ¬ (d.conntype = t ∧ s = d.serial)) ∨
    ∃ d ∈ L, d.conntype = t ∧ s = d.serial ∧ id_for_device s t L = d.id := by
  induction L with
  | nil => left; simp [id_for_device]
  | cons e rest ih =>
    unfold id_for_device
    split
    · rename_i he
      right
      exact ⟨e, List.mem_cons_self _ _, he.1, he.2, rfl⟩
    · rename_i he
      rcases ih with ⟨h0, hall⟩ | ⟨d, hd, h1, h2, h3⟩
      · left
        refine ⟨h0, ?_⟩
        intro d hd
        rcases List.mem_cons.mp hd with rfl | hd
        · exact he
        · exact hall d hd
      · right
        exact ⟨d, List.mem_cons_of_mem _ hd, h1, h2, h3⟩

/-! ## The invariant -/

theorem wf_id_mk (dev : Device) (k : Nat) (h1 : 1 ≤ k) (hk : k ≤ MAXID) :
    wf_id { dev with id := (2 * k) ||| wifi_flag dev.conntype } := by
  have hf := wifi_flag_le dev.conntype
  unfold wf_id
  simp only [or_flag]
  refine ⟨?_, ?_, ?_⟩ <;> omega

theorem alloc_id_spec {fuel : Nat} {m : Muxer} {dev : Device} {id1 newid : Nat}
    (hinv : Inv m) (h : alloc_id fuel m dev = some (id1, newid)) :
    ∃ k, 1 ≤ k ∧ k ≤ MAXID ∧ id1 = 2 * k ∧ 1 ≤ newid ∧ newid ≤ MAXID := by
  obtain ⟨hn1, hn2, hids⟩ := hinv
  unfold alloc_id at h
  simp only at h
  split at h
  · split at h
    · rename_i n hn
      cases h
      have := retryID_bounds hn hn1 hn2
      exact ⟨newid, this.1, this.2, shl1 _, this.1, this.2⟩
    · exact absurd h (by simp)
  · rename_i hne
    cases h
    rcases id_for_device_eq dev.serial (other_conntype dev.conntype) m.devices with
      ⟨h0, _⟩ | ⟨d, hd, _, _, h3⟩
    · rw [h0] at hne
      exact absurd (by decide) hne
    · obtain ⟨w1, w2, _⟩ := hids d hd
      rw [h3]
      exact ⟨d.id / 2, w1, w2, clear_bit0_of_le w2, hn1, hn2⟩

theorem add_device_inv {E : Env} {m : Muxer} {dev : Device} {r : AddResult}
    (hinv : Inv m) (h : add_device E m dev = some r) : Inv r.muxer := by
  unfold add_device add_device_fuel at h
  split at h
  · exact absurd h (by simp)
  · rename_i id1 newid ha
    obtain ⟨k, hk1, hk2, rfl, hn1, hn2⟩ := alloc_id_spec hinv ha
    have hwf := wf_id_mk dev k hk1 hk2
    simp only at h
    split at h
    · cases h
      refine ⟨hn1, hn2, ?_⟩
      intro d hd
      have hd2 := (set_erase_sublist _ _).subset hd
      rcases mem_set_insert hd2 with rfl | hd3
      · exact hwf
      · exact hinv.2.2 d hd3
    · cases h
      refine ⟨hn1, hn2, ?_⟩
      intro d hd
      rcases mem_set_insert hd with rfl | hd3
      · exact hwf
      · exact hinv.2.2 d hd3

theorem delete_device_at_devices (m : Muxer) (bus address : Nat) :
    (delete_device_at m bus address).1.devices =
      (erase_usb_location (usb_location_of bus address) m.devices).2 ∧
    (delete_device_at m bus address).1.newid = m.newid ∧
    (delete_device_at m bus address).1.clients = m.clients := by
  unfold delete_device_at
  simp only
  split <;> simp

theorem reachable_inv {m : Muxer} (h : Reachable m) : Inv m := by
  induction h with
  | init b => exact ⟨le_refl 1, (by decide : 1 ≤ MAXID), by simp [Muxer.init]⟩
  | add_device E m dev r _ hadd ih => exact add_device_inv ih hadd
  | delete_device m dev _ ih =>
    exact ⟨ih.1, ih.2.1, fun d hd => ih.2.2 d ((set_erase_sublist _ _).subset hd)⟩
  | delete_device_at m bus address _ ih =>
    obtain ⟨h1, h2, _⟩ := delete_device_at_devices m bus address
    refine ⟨h2 ▸ ih.1, h2 ▸ ih.2.1, ?_⟩
    intro d hd
    rw [h1] at hd
    exact ih.2.2 d ((erase_usb_location_sublist _ _).subset hd)
  | clients m cs _ ih => exact ih


theorem reachable_of_add {E : Env} {m m' : Muxer} {dev : Device} (h : Reachable m)
    (e : (add_device E m dev).map (fun r => r.muxer) = some m') : Reachable m' := by
  cases hr : add_device E m dev with
  | none => rw [hr] at e; exact absurd e (by simp)
  | some r =>
    rw [hr] at e
    simp only [Option.map_some', Option.some.injEq] at e
    subst e
    exact Reachable.add_device E m dev r h hr

theorem reachable_after_usb : Reachable after_usb :=
  reachable_of_add (Reachable.init false) (by decide : (add_device env_ok (Muxer.init false) usb_ABC).map (fun r => r.muxer) = some after_usb)

theorem reachable_after_usb_wifi : Reachable after_usb_wifi :=
  reachable_of_add reachable_after_usb (by decide : (add_device env_ok after_usb wifi_ABC).map (fun r => r.muxer) = some after_usb_wifi)

/-! ## C3, C5 -/

/-- C3. In every reachable state every registered device has an id of the form
`(slot << 1) | flag` with `1 ≤ slot ≤ MAXID` and `flag = 1` exactly when the device is a
Wi-Fi device; no registered device has id 0 or 1. -/
theorem registered_id_encoding (m : Muxer) (h : Reachable m) (d : Device)
    (hd : d ∈ m.devices) :
    (∃ slot flag, 1 ≤ slot ∧ slot ≤ MAXID ∧ d.id = (slot <<< 1) ||| flag ∧
      (flag = 1 ↔ d.conntype = MUXCONN_WIFI) ∧ (flag = 0 ↔ d.conntype = MUXCONN_USB)) ∧
    d.id ≠ 0 ∧ d.id ≠ 1 := by
  obtain ⟨w1, w2, w3⟩ := (reachable_inv h).2.2 d hd
  refine ⟨⟨d.id / 2, wifi_flag d.conntype, w1, w2, ?_, ?_, ?_⟩, ?_, ?_⟩
  · rw [shl1, or_flag]; omega
  · unfold wifi_flag; cases d.conntype <;> simp
  · unfold wifi_flag; cases d.conntype <;> simp
  · omega
  · omega

/-- Witness of C3: the Wi-Fi device of scenario 3, registered with id 3. -/
theorem registered_id_encoding_witness :
    Reachable after_usb_wifi ∧ { wifi_ABC with id := 3 } ∈ after_usb_wifi.devices ∧
    ((∃ slot flag, 1 ≤ slot ∧ slot ≤ MAXID ∧ ({ wifi_ABC with id := 3 } : Device).id = (slot <<< 1) ||| flag ∧
      (flag = 1 ↔ ({ wifi_ABC with id := 3 } : Device).conntype = MUXCONN_WIFI) ∧
      (flag = 0 ↔ ({ wifi_ABC with id := 3 } : Device).conntype = MUXCONN_USB)) ∧
      ({ wifi_ABC with id := 3 } : Device).id ≠ 0 ∧ ({ wifi_ABC with id := 3 } : Device).id ≠ 1) :=
  ⟨reachable_after_usb_wifi, by decide,
    registered_id_encoding after_usb_wifi reachable_after_usb_wifi { wifi_ABC with id := 3 }
      (by decide)⟩

/-- C5. In every reachable state `id_for_device(s, t)` is nonzero if and only if a
registered device has serial `s` and connection type `t`; a nonzero result is the id of
such a device, and the result is 0 when no device matches. -/
theorem id_for_device_nonzero_iff (m : Muxer) (h : Reachable m) (s : String)
    (t : mux_conn_type) :
    (id_for_device s t m.devices ≠ 0 ↔ ∃ d ∈ m.devices, d.serial = s ∧ d.conntype = t) ∧
    (id_for_device s t m.devices ≠ 0 →
      ∃ d ∈ m.devices, d.serial = s ∧ d.conntype = t ∧ d.id = id_for_device s t m.devices) ∧
    ((¬ ∃ d ∈ m.devices, d.serial = s ∧ d.conntype = t) → id_for_device s t m.devices = 0) := by
  have hinv := reachable_inv h
  rcases id_for_device_eq s t m.devices with ⟨h0, hall⟩ | ⟨d, hd, h1, h2, h3⟩
  · refine ⟨⟨fun hne => absurd h0 hne, ?_⟩, fun hne => absurd h0 hne, fun _ => h0⟩
    rintro ⟨d, hd, hs, ht⟩
    exact absurd ⟨ht, hs.symm⟩ (hall d hd)
  · have hne : id_for_device s t m.devices ≠ 0 := by
      obtain ⟨w1, _, _⟩ := hinv.2.2 d hd
      rw [h3]; omega
    refine ⟨⟨fun _ => ⟨d, hd, h2.symm, h1⟩, fun _ => hne⟩,
      fun _ => ⟨d, hd, h2.symm, h1, h3.symm⟩, ?_⟩
    intro hno
    exact absurd ⟨d, hd, h2.symm, h1⟩ hno

/-- Witness of C5: after scenario 3, `id_for_device("ABC", WIFI)` is 3 and
`id_for_device("XYZ", USB)` is 0. -/
theorem id_for_device_nonzero_iff_witness :
    Reachable after_usb_wifi ∧
    id_for_device "ABC" MUXCONN_WIFI after_usb_wifi.devices = 3 ∧
    id_for_device "XYZ" MUXCONN_USB after_usb_wifi.devices = 0 ∧
    (id_for_device "ABC" MUXCONN_WIFI after_usb_wifi.devices ≠ 0 ↔
      ∃ d ∈ after_usb_wifi.devices, d.serial = "ABC" ∧ d.conntype = MUXCONN_WIFI) :=
  ⟨reachable_after_usb_wifi, by decide, by decide,
    (id_for_device_nonzero_iff after_usb_wifi reachable_after_usb_wifi "ABC" MUXCONN_WIFI).1⟩


theorem mem_set_insert_of_ne {x d : Device} {L : List Device} (hd : d ∈ L)
    (hne : d.ptr ≠ x.ptr) : d ∈ set_insert x L := by
  induction L with
  | nil => exact absurd hd (List.not_mem_nil d)
  | cons e rest ih =>
    unfold set_insert
    split
    · exact List.mem_cons_of_mem _ hd
    · split
      · rename_i heq
        rcases List.mem_cons.mp hd with rfl | hd
        · exact absurd heq.symm hne
        · exact List.mem_cons_of_mem _ hd
      · rcases List.mem_cons.mp hd with rfl | hd
        · exact List.mem_cons_self _ _
        · exact List.mem_cons_of_mem _ (ih hd)

/-- What `add_device` does when the device's loop starts (or the device is a USB
device): the device is inserted with the id allocated and `Attached` is fanned out. -/
theorem add_device_of_started {E : Env} {m : Muxer} {dev : Device} {id1 newid : Nat}
    (ha : alloc_id 2 m dev = some (id1, newid))
    (hstart : dev.conntype = MUXCONN_WIFI →
      E.wifi_startLoop { dev with id := id1 ||| wifi_flag dev.conntype } = none) :
    add_device E m dev = some
      { muxer := { m with
          devices := set_insert { dev with id := id1 ||| wifi_flag dev.conntype } m.devices,
          newid := newid },
        dev := { dev with id := id1 ||| wifi_flag dev.conntype },
        events :=
          (if dev.conntype = MUXCONN_USB ∧ m.doPreflight = true then
            [Event.preflight_device dev.serial (id1 ||| wifi_flag dev.conntype)] else []) ++
          notify_device_add E
            { m with
              devices := set_insert { dev with id := id1 ||| wifi_flag dev.conntype } m.devices,
              newid := newid }
            { dev with id := id1 ||| wifi_flag dev.conntype } } := by
  unfold add_device add_device_fuel
  rw [ha]
  simp only
  by_cases hw : dev.conntype = MUXCONN_WIFI
  · have h := hstart hw
    simp only [hw, if_true] at h ⊢
    simp only [h]
  · simp only [hw, if_false]

/-- Counterexample to C1. Two USB devices with serial "ABC" are registered, with the
ids 2 and 4 (a state reached from a fresh Muxer by two calls of `add_device`). The
Wi-Fi device "ABC" is added and its loop starts: `id_for_device` returns the id of the
first USB device in iteration order, and the new id is 3. The USB device registered
with id `p = 4` has the same serial and the opposite connection type, but the new id is
not `(4 & ~1) | 1 = 5`, and the two devices are not in the same slot. -/
theorem add_device_peer_slot_counterexample :
    Reachable two_usb_ABC ∧
    ({ usb_ABC with ptr := 300, id := 4 } : Device) ∈ two_usb_ABC.devices ∧
    ({ usb_ABC with ptr := 300, id := 4 } : Device).serial = wifi_ABC.serial ∧
    ({ usb_ABC with ptr := 300, id := 4 } : Device).conntype =
      other_conntype wifi_ABC.conntype ∧
    env_ok.wifi_startLoop { wifi_ABC with id := 3 } = none ∧
    id_for_device wifi_ABC.serial (other_conntype wifi_ABC.conntype) two_usb_ABC.devices = 2 ∧
    (add_device env_ok two_usb_ABC wifi_ABC).map (fun r => r.dev.id) = some 3 ∧
    clear_bit0 4 ||| wifi_flag wifi_ABC.conntype = 5 ∧
    (add_device env_ok two_usb_ABC wifi_ABC).map (fun r => r.dev.id) ≠
      some (clear_bit0 4 ||| wifi_flag wifi_ABC.conntype) ∧
    (add_device env_ok two_usb_ABC wifi_ABC).map (fun r => r.dev.id >>> 1) ≠
      some (4 >>> 1) :=
  ⟨reachable_of_add reachable_after_usb
      (by decide : (add_device env_ok after_usb { usb_ABC with ptr := 300 }).map
        (fun r => r.muxer) = some two_usb_ABC),
    by decide, by decide, by decide, rfl, by decide, by decide, by decide, by decide,
    by decide⟩

/-- C1, as amended. When a device is added while a device with the same serial and the
opposite connection type is registered with id `p`, and `p` is the only id registered
for that serial and connection type, and the loop of a Wi-Fi device starts, the new
device gets the id `(p & ~1) | wifi_flag`: it is registered with the slot of its peer,
and the low bits of the two ids are 0 for the USB and 1 for the Wi-Fi device. This holds
in both orders. -/
theorem add_device_peer_slot (E : Env) (m : Muxer) (dev peer : Device) (hr : Reachable m)
    (hstart : dev.conntype = MUXCONN_WIFI → ∀ i, E.wifi_startLoop { dev with id := i } = none)
    (hpeer : peer ∈ m.devices) (hs : peer.serial = dev.serial)
    (ht : peer.conntype = other_conntype dev.conntype)
    (honly : ∀ d ∈ m.devices, d.serial = dev.serial → d.conntype = peer.conntype →
      d.id = peer.id) :
    ∃ r, add_device E m dev = some r ∧
      r.dev = { dev with id := clear_bit0 peer.id ||| wifi_flag dev.conntype } ∧
      r.dev ∈ r.muxer.devices ∧
      (peer.ptr ≠ dev.ptr → peer ∈ r.muxer.devices) ∧
      r.dev.id >>> 1 = peer.id >>> 1 ∧
      r.dev.id &&& 1 = wifi_flag dev.conntype ∧
      peer.id &&& 1 = wifi_flag peer.conntype ∧
      wifi_flag MUXCONN_USB = 0 ∧ wifi_flag MUXCONN_WIFI = 1 ∧
      wifi_flag dev.conntype ≠ wifi_flag peer.conntype := by
  have hinv := reachable_inv hr
  obtain ⟨w1, w2, w3⟩ := hinv.2.2 peer hpeer
  have hid : id_for_device dev.serial (other_conntype dev.conntype) m.devices = peer.id := by
    rcases id_for_device_eq dev.serial (other_conntype dev.conntype) m.devices with
      ⟨_, hall⟩ | ⟨d, hd, h1, h2, h3⟩
    · exact absurd ⟨ht, hs.symm⟩ (hall peer hpeer)
    · rw [h3]
      exact honly d hd h2.symm (h1.trans ht.symm)
  have hclear := clear_bit0_of_le w2
  have ha : alloc_id 2 m dev = some (clear_bit0 peer.id, m.newid) := by
    unfold alloc_id
    simp only [hid]
    rw [if_neg (by omega)]
  have hflag := wifi_flag_le dev.conntype
  refine ⟨_, add_device_of_started ha (fun hw => hstart hw _), rfl, ?_, ?_, ?_, ?_, ?_,
    by decide, by decide, ?_⟩
  · exact self_mem_set_insert _ _
  · intro hne
    exact mem_set_insert_of_ne hpeer hne
  · simp only [shr1, hclear, or_flag]
    omega
  · simp only [Nat.and_one_is_mod, hclear, or_flag]
    omega
  · simp only [Nat.and_one_is_mod]
    exact w3
  · rw [ht]
    unfold other_conntype wifi_flag
    cases dev.conntype <;> simp

/-- Witness of C1 as amended (scenarios 1, 3, 4 and 5): USB "ABC" gets id 2, then Wi-Fi
"ABC" gets id 3; after the USB device is removed and added again it gets id 2 again. -/
theorem add_device_peer_slot_witness :
    (add_device env_ok (Muxer.init false) usb_ABC).map (fun r => r.dev.id) = some 2 ∧
    Reachable after_usb ∧
    (∃ r, add_device env_ok after_usb wifi_ABC = some r ∧
      r.dev = { wifi_ABC with id := clear_bit0 2 ||| wifi_flag MUXCONN_WIFI } ∧
      r.dev ∈ r.muxer.devices ∧
      (({ usb_ABC with id := 2 } : Device).ptr ≠ wifi_ABC.ptr →
        { usb_ABC with id := 2 } ∈ r.muxer.devices) ∧
      r.dev.id >>> 1 = 2 >>> 1 ∧
      r.dev.id &&& 1 = wifi_flag MUXCONN_WIFI ∧
      2 &&& 1 = wifi_flag MUXCONN_USB ∧
      wifi_flag MUXCONN_USB = 0 ∧ wifi_flag MUXCONN_WIFI = 1 ∧
      wifi_flag MUXCONN_WIFI ≠ wifi_flag MUXCONN_USB) ∧
    (add_device env_ok after_usb wifi_ABC).map (fun r => r.dev.id) = some 3 ∧
    (add_device env_ok (delete_device_at after_usb_wifi 1 5).1 usb_ABC).map
      (fun r => (r.dev.id, r.muxer.devices.map (fun d => d.id))) = some (2, [2, 3]) :=
  ⟨by decide, reachable_after_usb,
    add_device_peer_slot env_ok after_usb wifi_ABC { usb_ABC with id := 2 }
      reachable_after_usb (fun _ _ => rfl) (by decide) (by decide) (by decide) (by decide),
    by decide, by decide⟩


/-! ## Fresh slots -/

theorem scan_pass_of_lt {L : List Device} {n : Nat} (h : ∀ d ∈ L, d.id / 2 < n) :
    scan_pass n L = some n := by
  induction L with
  | nil => rfl
  | cons e rest ih =>
    have he := h e (List.mem_cons_self _ _)
    unfold scan_pass
    rw [shr1, if_neg (by omega)]
    exact ih (fun d hd => h d (List.mem_cons_of_mem _ hd))

theorem scan_pass_of_le {L : List Device} {n : Nat} (h : ∀ d ∈ L, d.id / 2 ≤ n)
    (hn : n + 1 ≤ MAXID) :
    (scan_pass n L = some n ∧ ∀ d ∈ L, d.id / 2 < n) ∨
    (scan_pass n L = some (n + 1) ∧ ∃ d ∈ L, d.id / 2 = n) := by
  induction L with
  | nil => left; exact ⟨rfl, by simp⟩
  | cons e rest ih =>
    have he := h e (List.mem_cons_self _ _)
    have hrest : ∀ d ∈ rest, d.id / 2 ≤ n := fun d hd => h d (List.mem_cons_of_mem _ hd)
    unfold scan_pass
    rw [shr1]
    by_cases heq : e.id / 2 = n
    · right
      rw [if_pos heq, if_neg (by omega)]
      refine ⟨scan_pass_of_lt (fun d hd => ?_), e, List.mem_cons_self _ _, heq⟩
      have := hrest d hd
      omega
    · rw [if_neg heq]
      rcases ih hrest with ⟨h1, h2⟩ | ⟨h1, d, hd, h2⟩
      · left
        refine ⟨h1, ?_⟩
        intro d hd
        rcases List.mem_cons.mp hd with rfl | hd
        · omega
        · exact h2 d hd
      · right
        exact ⟨h1, d, List.mem_cons_of_mem _ hd, h2⟩

theorem id_for_device_of_none {s : String} {t : mux_conn_type} {L : List Device}
    (h : ∀ d ∈ L, ¬ (d.conntype = t ∧ s = d.serial)) : id_for_device s t L = 0 := by
  rcases id_for_device_eq s t L with ⟨h0, _⟩ | ⟨d, hd, h1, h2, _⟩
  · exact h0
  · exact absurd ⟨h1, h2⟩ (h d hd)

/-- The allocation for a device that is not registered and has no peer, in a state in
which no slot above `_newid` is in use and `_newid < MAXID`: `_newid` if it is free,
`_newid + 1` otherwise. The slot allocated is not in use. -/
theorem alloc_id_fresh {m : Muxer} {dev : Device}
    (hnew : ∀ d ∈ m.devices, d.ptr ≠ dev.ptr)
    (hpeer : ∀ d ∈ m.devices, ¬ (d.conntype = other_conntype dev.conntype ∧ dev.serial = d.serial))
    (hle : ∀ d ∈ m.devices, d.id / 2 ≤ m.newid) (hn : m.newid + 1 ≤ MAXID) :
    ∃ k, alloc_id 2 m dev = some (2 * k, k) ∧ (∀ d ∈ m.devices, d.id / 2 ≠ k) ∧
      ((k = m.newid ∧ ∀ d ∈ m.devices, d.id / 2 < m.newid) ∨
       (k = m.newid + 1 ∧ ∃ d ∈ m.devices, d.id / 2 = m.newid)) := by
  have h0 : clear_bit0 (id_for_device dev.serial (other_conntype dev.conntype) m.devices) = 0 := by
    rw [id_for_device_of_none hpeer]; decide
  unfold alloc_id
  simp only [h0, if_true]
  rw [set_id_of_not_mem hnew]
  rcases scan_pass_of_le hle hn with ⟨h1, h2⟩ | ⟨h1, h2⟩
  · refine ⟨m.newid, ?_, ?_, Or.inl ⟨rfl, h2⟩⟩
    · simp [retryID, h1, shl1]
    · intro d hd
      have := h2 d hd
      omega
  · refine ⟨m.newid + 1, ?_, ?_, Or.inr ⟨rfl, h2⟩⟩
    · simp [retryID, h1, shl1]
    · intro d hd
      have := hle d hd
      omega

theorem slot_of_id (k : Nat) (t : mux_conn_type) : ((2 * k) ||| wifi_flag t) / 2 = k := by
  have := wifi_flag_le t
  rw [or_flag]
  omega

/-! ## C4 -/

theorem add_devices_from {E : Env} (devs : List Device) :
    ∀ (m : Muxer) (j : Nat),
    (devs.map (fun d => d.serial)).Nodup → (devs.map (fun d => d.ptr)).Nodup →
    j + devs.length ≤ MAXID →
    (∀ d ∈ devs, d.conntype = MUXCONN_WIFI → ∀ i, E.wifi_startLoop { d with id := i } = none) →
    (∀ d ∈ m.devices, ∀ x ∈ devs, d.serial ≠ x.serial ∧ d.ptr ≠ x.ptr) →
    (∀ d ∈ m.devices, d.id / 2 ≤ j) →
    ((j = 0 ∧ m.newid = 1) ∨ (1 ≤ j ∧ m.newid = j ∧ ∃ d ∈ m.devices, d.id / 2 = j)) →
    ∃ m' ids, add_devices E m devs = some (m', ids) ∧
      ids = List.zipWith (fun k d => (k <<< 1) ||| wifi_flag d.conntype)
        (List.range' (j + 1) devs.length) devs := by
  induction devs with
  | nil =>
    intro m j _ _ _ _ _ _ _
    exact ⟨m, [], rfl, rfl⟩
  | cons dev rest ih =>
    intro m j hser hptr hlen hstart hdisj hle hnewid
    simp only [List.map_cons, List.nodup_cons, List.mem_map, not_exists, not_and,
      List.length_cons] at hser hptr hlen
    have hnew : ∀ d ∈ m.devices, d.ptr ≠ dev.ptr :=
      fun d hd => (hdisj d hd dev (List.mem_cons_self _ _)).2
    have hpeer : ∀ d ∈ m.devices,
        ¬ (d.conntype = other_conntype dev.conntype ∧ dev.serial = d.serial) :=
      fun d hd h => (hdisj d hd dev (List.mem_cons_self _ _)).1 h.2.symm
    -- the slot allocated is `j + 1`
    have halloc : alloc_id 2 m dev = some (2 * (j + 1), j + 1) := by
      rcases hnewid with ⟨hj, hn⟩ | ⟨hj, hn, d0, hd0, hs0⟩
      · have h0 : clear_bit0
            (id_for_device dev.serial (other_conntype dev.conntype) m.devices) = 0 := by
          rw [id_for_device_of_none hpeer]; decide
        unfold alloc_id
        simp only [h0, if_true]
        rw [set_id_of_not_mem hnew, hn]
        have : scan_pass 1 m.devices = some 1 :=
          scan_pass_of_lt (fun d hd => by have := hle d hd; omega)
        simp [retryID, this, shl1, hj]
      · obtain ⟨k, hk, _, hcase⟩ := alloc_id_fresh hnew hpeer
          (fun d hd => by have := hle d hd; omega) (by omega)
        rcases hcase with ⟨_, hlt⟩ | ⟨hk2, _⟩
        · have := hlt d0 hd0
          omega
        · rw [hk, hk2, hn]
    have hadd := add_device_of_started (E := E) halloc
      (fun hw => hstart dev (List.mem_cons_self _ _) hw _)
    obtain ⟨m', ids, hrec, hids⟩ := ih
      { m with
        devices := set_insert { dev with id := (2 * (j + 1)) ||| wifi_flag dev.conntype } m.devices,
        newid := j + 1 }
      (j + 1) hser.2 hptr.2 (by omega)
      (fun d hd => hstart d (List.mem_cons_of_mem _ hd))
      (by
        intro d hd x hx
        rcases mem_set_insert hd with rfl | hd
        · exact ⟨fun h => hser.1 x hx h.symm, fun h => hptr.1 x hx h.symm⟩
        · exact hdisj d hd x (List.mem_cons_of_mem _ hx))
      (by
        intro d hd
        rcases mem_set_insert hd with rfl | hd
        · simp only [slot_of_id]; exact le_refl _
        · have := hle d hd; omega)
      (Or.inr ⟨by omega, rfl, _, self_mem_set_insert _ _, by simp only [slot_of_id]⟩)
    refine ⟨m', ((2 * (j + 1)) ||| wifi_flag dev.conntype) :: ids, ?_, ?_⟩
    · unfold add_devices
      rw [hadd]
      simp only [hrec]
    · rw [hids]
      simp only [List.length_cons, List.range'_succ, List.zipWith_cons_cons, shl1]

theorem map_slot_zipWith (devs : List Device) (a : Nat) :
    (List.zipWith (fun k (d : Device) => (k <<< 1) ||| wifi_flag d.conntype)
      (List.range' a devs.length) devs).map (fun i => i >>> 1) = List.range' a devs.length := by
  induction devs generalizing a with
  | nil => rfl
  | cons d rest ih =>
    simp only [List.length_cons, List.range'_succ, List.zipWith_cons_cons, List.map_cons,
      List.cons.injEq]
    refine ⟨?_, ih (a + 1)⟩
    rw [shr1, shl1, slot_of_id]

/-- C4. From a freshly constructed Muxer, `n ≤ MAXID` calls of `add_device` with
pairwise distinct serials (distinct objects, every Wi-Fi loop starting) and no removal
all return, and the `k`-th device added gets the id `(k << 1) | flag`: the slots are
`1, 2, ..., n`, strictly increasing in the order of insertion. A USB device added first
gets id 2. -/
theorem add_devices_slots (E : Env) (doPreflight : Bool) (devs : List Device)
    (hser : (devs.map (fun d => d.serial)).Nodup) (hptr : (devs.map (fun d => d.ptr)).Nodup)
    (hlen : devs.length ≤ MAXID)
    (hstart : ∀ d ∈ devs, d.conntype = MUXCONN_WIFI →
      ∀ i, E.wifi_startLoop { d with id := i } = none) :
    ∃ m ids, add_devices E (Muxer.init doPreflight) devs = some (m, ids) ∧
      ids = List.zipWith (fun k d => (k <<< 1) ||| wifi_flag d.conntype)
        (List.range' 1 devs.length) devs ∧
      ids.map (fun i => i >>> 1) = List.range' 1 devs.length ∧
      (ids.map (fun i => i >>> 1)).Pairwise (fun a b => a < b) ∧
      (∀ d rest, devs = d :: rest → d.conntype = MUXCONN_USB → ids.head? = some 2) := by
  obtain ⟨m, ids, h1, h2⟩ := add_devices_from (E := E) devs (Muxer.init doPreflight) 0
    hser hptr (by omega) hstart (by simp [Muxer.init]) (by simp [Muxer.init])
    (Or.inl ⟨rfl, rfl⟩)
  simp only [Nat.zero_add] at h2
  have h3 : ids.map (fun i => i >>> 1) = List.range' 1 devs.length := by
    rw [h2]; exact map_slot_zipWith devs 1
  refine ⟨m, ids, h1, h2, h3, ?_, ?_⟩
  · rw [h3]
    exact List.pairwise_lt_range' 1 devs.length
  · intro d rest hd hu
    subst hd
    rw [h2]
    simp [List.range'_succ, hu, wifi_flag]

/-- Witness of C4: a USB device, a Wi-Fi device and another USB device, with three
serials, get the ids 2, 5 and 6. -/
theorem add_devices_slots_witness :
    ∃ m ids,
      add_devices env_ok (Muxer.init true)
        [usb_ABC, { wifi_ABC with serial := "DEF" }, { usb_ABC with ptr := 300, serial := "GHI" }]
        = some (m, ids) ∧
      ids = [2, 5, 6] ∧
      ids.map (fun i => i >>> 1) = [1, 2, 3] :=
  match add_devices_slots env_ok true
      [usb_ABC, { wifi_ABC with serial := "DEF" }, { usb_ABC with ptr := 300, serial := "GHI" }]
      (by decide) (by decide) (by decide) (fun _ _ _ _ => rfl) with
  | ⟨m, ids, h1, h2, h3, _, _⟩ => ⟨m, ids, h1, h2.trans (by decide), h3.trans (by decide)⟩


/-! ## C2 -/

theorem add_device_result {E : Env} {m : Muxer} {dev : Device} {r : AddResult}
    (h : add_device E m dev = some r) :
    ∃ id1 newid, alloc_id 2 m dev = some (id1, newid) ∧
      r.dev = { dev with id := id1 ||| wifi_flag dev.conntype } ∧
      r.muxer.newid = newid ∧ r.muxer.clients = m.clients ∧
      r.muxer.doPreflight = m.doPreflight ∧
      (r.muxer.devices = set_insert r.dev m.devices ∨
       r.muxer.devices = set_erase r.dev.ptr (set_insert r.dev m.devices)) := by
  unfold add_device add_device_fuel at h
  split at h
  · exact absurd h (by simp)
  · rename_i id1 newid ha
    simp only at h
    split at h
    · cases h
      exact ⟨id1, newid, ha, rfl, rfl, rfl, rfl, Or.inr rfl⟩
    · cases h
      exact ⟨id1, newid, ha, rfl, rfl, rfl, rfl, Or.inl rfl⟩

theorem add_device_devices_sublist {E : Env} {m : Muxer} {dev : Device} {r : AddResult}
    (h : add_device E m dev = some r) :
    r.muxer.devices.Sublist (set_insert r.dev m.devices) := by
  obtain ⟨_, _, _, _, _, _, _, hd | hd⟩ := add_device_result h
  · rw [hd]
  · rw [hd]; exact set_erase_sublist _ _

theorem pairwise_set_insert {R : Device → Device → Prop} {x : Device} {L : List Device}
    (hL : L.Pairwise R) (h1 : ∀ d ∈ L, R x d) (h2 : ∀ d ∈ L, R d x) :
    (set_insert x L).Pairwise R := by
  induction L with
  | nil => simp [set_insert]
  | cons e rest ih =>
    have hrest := List.pairwise_cons.mp hL
    unfold set_insert
    split
    · exact List.pairwise_cons.mpr ⟨h1, hL⟩
    · split
      · exact List.pairwise_cons.mpr
          ⟨fun d hd => h1 d (List.mem_cons_of_mem _ hd), hrest.2⟩
      · refine List.pairwise_cons.mpr ⟨?_, ih hrest.2
          (fun d hd => h1 d (List.mem_cons_of_mem _ hd))
          (fun d hd => h2 d (List.mem_cons_of_mem _ hd))⟩
        intro d hd
        rcases mem_set_insert hd with rfl | hd
        · exact h2 e (List.mem_cons_self _ _)
        · exact hrest.1 d hd

/-- The allocation in a state in which no slot above `_newid` is in use and
`_newid < MAXID`, for a device that is not registered: the slot of a registered device
with the same serial, or a slot that is not in use, which is then `_newid`. -/
theorem alloc_id_cases {m : Muxer} {dev : Device} {id1 newid : Nat} (hinv : Inv m)
    (hnew : ∀ d ∈ m.devices, d.ptr ≠ dev.ptr)
    (hle : ∀ d ∈ m.devices, d.id / 2 ≤ m.newid) (hn : m.newid + 1 ≤ MAXID)
    (h : alloc_id 2 m dev = some (id1, newid)) :
    ∃ k, id1 = 2 * k ∧ 1 ≤ k ∧ k ≤ MAXID ∧
      ((newid = m.newid ∧ ∃ p ∈ m.devices, p.serial = dev.serial ∧ p.id / 2 = k) ∨
       (newid = k ∧ (∀ d ∈ m.devices, d.id / 2 ≠ k) ∧ m.newid ≤ k ∧ k ≤ m.newid + 1)) := by
  unfold alloc_id at h
  simp only at h
  split at h
  · rw [set_id_of_not_mem hnew] at h
    rcases scan_pass_of_le hle hn with ⟨h1, h2⟩ | ⟨h1, _⟩
    · simp only [retryID, h1, Option.some.injEq, Prod.mk.injEq] at h
      obtain ⟨rfl, rfl⟩ := h
      refine ⟨m.newid, shl1 _, hinv.1, hinv.2.1, Or.inr ⟨rfl, ?_, le_refl _, by omega⟩⟩
      intro d hd
      have := h2 d hd
      omega
    · simp only [retryID, h1, Option.some.injEq, Prod.mk.injEq] at h
      obtain ⟨rfl, rfl⟩ := h
      refine ⟨m.newid + 1, shl1 _, by omega, hn, Or.inr ⟨rfl, ?_, by omega, le_refl _⟩⟩
      intro d hd
      have := hle d hd
      omega
  · rename_i hne
    simp only [Option.some.injEq, Prod.mk.injEq] at h
    obtain ⟨rfl, rfl⟩ := h
    rcases id_for_device_eq dev.serial (other_conntype dev.conntype) m.devices with
      ⟨h0, _⟩ | ⟨d, hd, _, h2, h3⟩
    · rw [h0] at hne
      exact absurd (by decide) hne
    · obtain ⟨w1, w2, _⟩ := hinv.2.2 d hd
      rw [h3]
      exact ⟨d.id / 2, clear_bit0_of_le w2, w1, w2, Or.inl ⟨rfl, d, hd, h2.symm, rfl⟩⟩

theorem reachableUnique_reachable {n : Nat} {m : Muxer} (h : ReachableUnique n m) :
    Reachable m := by
  induction h with
  | init b => exact Reachable.init b
  | add_device E m dev r n _ _ _ hadd ih => exact Reachable.add_device E m dev r ih hadd
  | delete_device m dev n _ ih => exact Reachable.delete_device m dev ih
  | delete_device_at m bus address n _ ih => exact Reachable.delete_device_at m bus address ih
  | clients m cs n _ ih => exact Reachable.clients m cs ih

theorem invUnique_of_sublist {n : Nat} {m m' : Muxer} (h : InvUnique n m) (hinv : Inv m')
    (hs : m'.devices.Sublist m.devices) (hn : m'.newid = m.newid) : InvUnique n m' := by
  obtain ⟨_, h2, h3, h4, h5⟩ := h
  refine ⟨hinv, List.Pairwise.sublist hs h2, ?_, ?_, ?_⟩
  · intro d hd
    rw [hn]
    exact h3 d (hs.subset hd)
  · rcases h4 with ⟨a, b, c⟩ | ⟨a, b⟩
    · left
      rw [c] at hs
      exact ⟨a, hn.trans b, List.eq_nil_of_sublist_nil hs⟩
    · right
      exact ⟨a, hn ▸ b⟩
  · intro a ha b hb
    exact h5 a (hs.subset ha) b (hs.subset hb)

theorem add_device_invUnique {E : Env} {m : Muxer} {dev : Device} {r : AddResult} {n : Nat}
    (h : InvUnique n m) (hn : n + 1 ≤ MAXID)
    (hnew : ∀ d ∈ m.devices, d.ptr ≠ dev.ptr)
    (huniq : ∀ d ∈ m.devices, ¬ (d.serial = dev.serial ∧ d.conntype = dev.conntype))
    (hadd : add_device E m dev = some r) : InvUnique (n + 1) r.muxer := by
  obtain ⟨hinv, h2, h3, h4, h5⟩ := h
  have hmax : MAXID = 1073741823 := by decide
  have hnewid : m.newid + 1 ≤ MAXID := by
    rcases h4 with ⟨_, b, _⟩ | ⟨_, b⟩ <;> omega
  obtain ⟨id1, newid, ha, hdev, hnid, _, _, _⟩ := add_device_result hadd
  obtain ⟨k, rfl, hk1, hk2, hcase⟩ := alloc_id_cases hinv hnew h3 hnewid ha
  have hsub := add_device_devices_sublist hadd
  have hslot : r.dev.id / 2 = k := by rw [hdev]; exact slot_of_id k _
  have hser : r.dev.serial = dev.serial := by rw [hdev]
  have hct : r.dev.conntype = dev.conntype := by rw [hdev]
  have hmem : ∀ d ∈ r.muxer.devices, d = r.dev ∨ d ∈ m.devices :=
    fun d hd => mem_set_insert (hsub.subset hd)
  refine ⟨add_device_inv hinv hadd, ?_, ?_, ?_, ?_⟩
  · refine List.Pairwise.sublist hsub (pairwise_set_insert h2 ?_ ?_)
    · intro d hd hc
      exact huniq d hd ⟨(hc.1.symm.trans hser), (hc.2.symm.trans hct)⟩
    · intro d hd hc
      exact huniq d hd ⟨hc.1.trans hser, hc.2.trans hct⟩
  · intro d hd
    rw [hnid]
    rcases hmem d hd with rfl | hd
    · rw [hslot]
      rcases hcase with ⟨hc, p, hp, _, hps⟩ | ⟨hc, _, _, _⟩
      · have := h3 p hp
        omega
      · omega
    · have := h3 d hd
      rcases hcase with ⟨hc, _⟩ | ⟨hc, _, _, _⟩ <;> omega
  · right
    refine ⟨by omega, ?_⟩
    rw [hnid]
    rcases h4 with ⟨a, b, c⟩ | ⟨a, b⟩
    · rcases hcase with ⟨hc, p, hp, _⟩ | ⟨hc, _, _, hk⟩
      · rw [c] at hp
        exact absurd hp (List.not_mem_nil p)
      · rcases Nat.lt_or_ge k (m.newid + 1) with hlt | hge
        · omega
        · -- `k = _newid + 1` needs a registered device in slot `_newid`
          have hk' : k = m.newid + 1 := by omega
          have hs := scan_pass_of_lt (L := m.devices) (n := m.newid) (by rw [c]; simp)
          unfold alloc_id at ha
          simp only at ha
          split at ha
          · rw [set_id_of_not_mem hnew] at ha
            simp only [retryID, hs, Option.some.injEq, Prod.mk.injEq] at ha
            omega
          · rename_i hne
            rw [c] at hne
            exact absurd (by simp [id_for_device, clear_bit0]) hne
    · rcases hcase with ⟨hc, _⟩ | ⟨hc, _, _, hk⟩ <;> omega
  · intro a ha' b hb' hab
    rcases hmem a ha' with rfl | ha'
    · rcases hmem b hb' with rfl | hb'
      · rfl
      · rw [hser]
        rw [hslot] at hab
        rcases hcase with ⟨_, p, hp, hps, hpk⟩ | ⟨_, hfree, _, _⟩
        · rw [← hps]
          exact h5 p hp b hb' (hpk.trans hab)
        · exact absurd hab.symm (hfree b hb')
    · rcases hmem b hb' with rfl | hb'
      · rw [hser]
        rw [hslot] at hab
        rcases hcase with ⟨_, p, hp, hps, hpk⟩ | ⟨_, hfree, _, _⟩
        · rw [← hps]
          exact h5 a ha' p hp (hab.trans hpk.symm)
        · exact absurd hab (hfree a ha')
      · exact h5 a ha' b hb' hab

theorem reachableUnique_inv {n : Nat} {m : Muxer} (h : ReachableUnique n m) :
    n ≤ MAXID → InvUnique n m := by
  induction h with
  | init b =>
    intro _
    exact ⟨reachable_inv (Reachable.init b), by simp [unique_pairs, Muxer.init],
      by simp [Muxer.init], Or.inl ⟨rfl, rfl, rfl⟩, by simp [Muxer.init]⟩
  | add_device E m dev r n _ hnew huniq hadd ih =>
    intro hn
    exact add_device_invUnique (ih (by omega)) hn hnew huniq hadd
  | delete_device m dev n hreach ih =>
    intro hn
    exact invUnique_of_sublist (ih hn)
      (reachable_inv (Reachable.delete_device m dev (reachableUnique_reachable hreach)))
      (set_erase_sublist _ _) rfl
  | delete_device_at m bus address n hreach ih =>
    intro hn
    obtain ⟨h1, h2, _⟩ := delete_device_at_devices m bus address
    exact invUnique_of_sublist (ih hn)
      (reachable_inv
        (Reachable.delete_device_at m bus address (reachableUnique_reachable hreach)))
      (h1 ▸ erase_usb_location_sublist _ _) h2
  | clients m cs n _ ih =>
    intro hn
    exact ih hn

/-- C2, as amended. In every state reached from a freshly constructed Muxer by at most
`MAXID` calls of `add_device`, each for a device that is not registered and whose serial
and connection type no registered device has, and any number of calls of
`delete_device(dev)` and `delete_device(bus, address)`, the ids of the registered
devices are pairwise distinct. -/
theorem distinct_ids_of_unique (n : Nat) (m : Muxer) (h : ReachableUnique n m)
    (hn : n ≤ MAXID) : (m.devices.map (fun d => d.id)).Nodup := by
  obtain ⟨hinv, h2, _, _, h5⟩ := reachableUnique_inv h hn
  unfold List.Nodup
  rw [List.pairwise_map]
  refine List.Pairwise.imp_of_mem ?_ h2
  intro a b ha hb hab hid
  apply hab
  refine ⟨h5 a ha b hb (by rw [hid]), ?_⟩
  have wa := (hinv.2.2 a ha).2.2
  have wb := (hinv.2.2 b hb).2.2
  rw [hid, wb] at wa
  revert wa
  unfold wifi_flag
  cases a.conntype <;> cases b.conntype <;> simp

theorem reachableUnique_of_add {E : Env} {n : Nat} {m m' : Muxer} {dev : Device}
    (h : ReachableUnique n m) (hnew : ∀ d ∈ m.devices, d.ptr ≠ dev.ptr)
    (huniq : ∀ d ∈ m.devices, ¬ (d.serial = dev.serial ∧ d.conntype = dev.conntype))
    (e : (add_device E m dev).map (fun r => r.muxer) = some m') :
    ReachableUnique (n + 1) m' := by
  cases hr : add_device E m dev with
  | none => rw [hr] at e; exact absurd e (by simp)
  | some r =>
    rw [hr] at e
    simp only [Option.map_some', Option.some.injEq] at e
    subst e
    exact ReachableUnique.add_device E m dev r n h hnew huniq hr

theorem reachableUnique_after_usb_wifi : ReachableUnique 2 after_usb_wifi :=
  reachableUnique_of_add
    (reachableUnique_of_add (ReachableUnique.init false) (by decide) (by decide)
      (by decide : (add_device env_ok (Muxer.init false) usb_ABC).map
        (fun r => r.muxer) = some after_usb))
    (by decide) (by decide)
    (by decide : (add_device env_ok after_usb wifi_ABC).map
        (fun r => r.muxer) = some after_usb_wifi)

/-- Witness of C2 as amended: after scenario 3 the ids 2 and 3 are registered. -/
theorem distinct_ids_of_unique_witness :
    ReachableUnique 2 after_usb_wifi ∧ 2 ≤ MAXID ∧
    after_usb_wifi.devices.map (fun d => d.id) = [2, 3] ∧
    (after_usb_wifi.devices.map (fun d => d.id)).Nodup :=
  ⟨reachableUnique_after_usb_wifi, by decide, by decide,
    distinct_ids_of_unique 2 after_usb_wifi reachableUnique_after_usb_wifi (by decide)⟩


/-! ## C2 beyond `MAXID` calls: the wrap of `_newid` -/

theorem reachableUnique_wrap_start : ReachableUnique 3 (wrap_state 3 true) :=
  reachableUnique_of_add
    (reachableUnique_of_add
      (reachableUnique_of_add (ReachableUnique.init false) (by decide) (by decide)
        (by decide : (add_device env_ok (Muxer.init false) wrap_A).map (fun r => r.muxer) =
          some { devices := [{ wrap_A with id := 2 }], clients := [], doPreflight := false,
                 newid := 1 }))
      (by decide) (by decide)
      (by decide : (add_device env_ok _ wrap_B).map (fun r => r.muxer) =
        some { devices := [{ wrap_B with id := 4 }, { wrap_A with id := 2 }], clients := [],
               doPreflight := false, newid := 2 }))
    (by decide) (by decide)
    (by decide : (add_device env_ok _ (wrap_dev true)).map (fun r => r.muxer) =
      some (wrap_state 3 true))

/-- One round: the other one of "X" and "Y" is added (it gets slot `k + 1`), then the
one registered is removed. -/
theorem reachableUnique_wrap_step {n k : Nat} {b : Bool} (hk : 3 ≤ k) (hk2 : k + 1 ≤ MAXID)
    (h : ReachableUnique n (wrap_state k b)) :
    ReachableUnique (n + 1) (wrap_state (k + 1) (!b)) := by
  have hnew : ∀ d ∈ (wrap_state k b).devices, d.ptr ≠ (wrap_dev (!b)).ptr := by
    cases b <;> simp [wrap_state, wrap_dev, wrap_A, wrap_B]
  have huniq : ∀ d ∈ (wrap_state k b).devices,
      ¬ (d.serial = (wrap_dev (!b)).serial ∧ d.conntype = (wrap_dev (!b)).conntype) := by
    cases b <;> simp [wrap_state, wrap_dev, wrap_A, wrap_B]
  have hpeer : ∀ d ∈ (wrap_state k b).devices,
      ¬ (d.conntype = other_conntype (wrap_dev (!b)).conntype ∧
        (wrap_dev (!b)).serial = d.serial) := by
    cases b <;> simp [wrap_state, wrap_dev, wrap_A, wrap_B, other_conntype]
  have hle : ∀ d ∈ (wrap_state k b).devices, d.id / 2 ≤ (wrap_state k b).newid := by
    simp only [wrap_state, List.mem_cons, List.mem_singleton, List.not_mem_nil, or_false]
    rintro d (rfl | rfl | rfl) <;> simp <;> omega
  obtain ⟨j, hj, _, hcase⟩ := alloc_id_fresh hnew hpeer hle hk2
  have hj2 : j = k + 1 := by
    rcases hcase with ⟨_, hlt⟩ | ⟨hj2, _⟩
    · have := hlt { wrap_dev b with id := 2 * k } (by simp [wrap_state])
      simp [wrap_state] at this
    · exact hj2
  subst hj2
  have hadd := add_device_of_started (E := env_ok) hj (fun _ => rfl)
  have h1 := ReachableUnique.add_device env_ok _ _ _ n h hnew huniq hadd
  have h2 := ReachableUnique.delete_device _ { wrap_dev b with id := 2 * k } _ h1
  have hst : (delete_device
      { wrap_state k b with
        devices := set_insert
          { wrap_dev (!b) with id := (2 * (k + 1)) ||| wifi_flag (wrap_dev (!b)).conntype }
          (wrap_state k b).devices,
        newid := k + 1 }
      { wrap_dev b with id := 2 * k }).1 = wrap_state (k + 1) (!b) := by
    cases b <;>
      simp [delete_device, wrap_state, wrap_dev, wrap_A, wrap_B, set_insert, set_erase,
        wifi_flag]
  rw [← hst]
  exact h2

theorem reachableUnique_wrap (k : Nat) (hk : 3 ≤ k) (hk2 : k ≤ MAXID) :
    ∃ n b, ReachableUnique n (wrap_state k b) := by
  induction k, hk using Nat.le_induction with
  | base => exact ⟨3, true, reachableUnique_wrap_start⟩
  | succ k hk ih =>
    obtain ⟨n, b, h⟩ := ih (by omega)
    exact ⟨n + 1, !b, reachableUnique_wrap_step hk hk2 h⟩

/-- With more than `MAXID` calls of `add_device` the ids need not stay distinct, even
when every device added is new and has a serial and connection type of its own: once
`_newid` has wrapped, one traversal at `retryID` passes "B" (slot 2) before it finds
"A" in slot 1, and slot 2 is handed out again. -/
theorem distinct_ids_fail_after_wrap :
    ∃ n m, ReachableUnique n m ∧ ¬ (m.devices.map (fun d => d.id)).Nodup := by
  obtain ⟨n, b, h⟩ := reachableUnique_wrap MAXID (by decide) (le_refl _)
  have hfin : ReachableUnique (n + 1) (wrap_final b) := by
    cases b
    · exact @reachableUnique_of_add env_ok n _ _ (wrap_dev true) h
        (by decide) (by decide) (by decide)
    · exact @reachableUnique_of_add env_ok n _ _ (wrap_dev false) h
        (by decide) (by decide) (by decide)
  refine ⟨n + 1, wrap_final b, hfin, ?_⟩
  cases b <;> decide

/-- Counterexample to C2. A USB device, a Wi-Fi device and a second USB device, all with
serial "ABC", are added to a fresh Muxer: the two USB devices are registered with the
same id 2. And when every device added is new and has a serial and connection type of
its own, the ids still need not stay distinct once more than `MAXID` devices have been
added (`_newid` wraps). -/
theorem distinct_ids_counterexample :
    add_devices env_ok (Muxer.init false) [usb_ABC, wifi_ABC, { usb_ABC with ptr := 300 }]
      = some (after_second_usb, [2, 3, 2]) ∧
    Reachable after_second_usb ∧
    after_second_usb.devices.map (fun d => d.id) = [2, 3, 2] ∧
    ¬ (after_second_usb.devices.map (fun d => d.id)).Nodup ∧
    ∃ n m, ReachableUnique n m ∧ ¬ (m.devices.map (fun d => d.id)).Nodup :=
  ⟨by decide,
    reachable_of_add reachable_after_usb_wifi
      (by decide : (add_device env_ok after_usb_wifi { usb_ABC with ptr := 300 }).map
        (fun r => r.muxer) = some after_second_usb),
    by decide, by decide, distinct_ids_fail_after_wrap⟩


/-! ## C6, C7: removal -/

/-- C6 (code at the failing input). The id `1073741824 = (536870912 << 1) | 0` is an id
of the identity encoding (slot `536870912 ≤ MAXID`, USB), and it is equal to
`INVALID_ID`. `delete_device(1, 5)` removes the USB device registered with it at (1,5)
and sends nothing to the listening client C1; with id 2 at the same place it sends
`Detached` with `DeviceID` 2 and leaves the Wi-Fi device (id 3). A USB device gets this
id from `add_device` itself, in a state reached from a fresh Muxer, and is then removed
without a notification in the same way. -/
theorem delete_device_at_sentinel_id :
    (1073741824 : Nat) = (536870912 <<< 1) ||| wifi_flag MUXCONN_USB ∧
    1 ≤ 536870912 ∧ 536870912 ≤ MAXID ∧ INVALID_ID = 1073741824 ∧
    (delete_device_at listening_usb_slot_2_29 1 5).1.devices = [] ∧
    (delete_device_at listening_usb_slot_2_29 1 5).2 = [] ∧
    (delete_device_at listening_usb_wifi 1 5).1.devices = [{ wifi_ABC with id := 3 }] ∧
    (delete_device_at listening_usb_wifi 1 5).2 =
      [Event.send client_C1.ptr 0 (detached_plist 2) [{ wifi_ABC with id := 3 }]] ∧
    ∃ n b, ReachableUnique n { wrap_state 536870912 b with clients := [client_C1] } ∧
      { wrap_dev b with id := INVALID_ID } ∈ (wrap_state 536870912 b).devices ∧
      (wrap_dev b).usb_location = usb_location_of 1 (if b then 3 else 4) ∧
      (delete_device_at { wrap_state 536870912 b with clients := [client_C1] } 1
        (if b then 3 else 4)).1.devices = [{ wrap_B with id := 4 }, { wrap_A with id := 2 }] ∧
      (delete_device_at { wrap_state 536870912 b with clients := [client_C1] } 1
        (if b then 3 else 4)).2 = [] :=
  ⟨by decide, by decide, by decide, by decide, by decide, rfl, by decide, rfl,
    match reachableUnique_wrap 536870912 (by decide) (by decide) with
    | ⟨n, true, h⟩ =>
      ⟨n, true, ReachableUnique.clients _ [client_C1] n h, by decide, by decide, by decide, rfl⟩
    | ⟨n, false, h⟩ =>
      ⟨n, false, ReachableUnique.clients _ [client_C1] n h, by decide, by decide, by decide, rfl⟩⟩

/-- C7 (code at the failing input). The USB device registered with id 2 is removed by
`delete_device(dev)`, and `delete_device(dev)` is called for it once more. The second
call finds no device to remove, leaves the registry as it is, and still sends `Detached`
with `DeviceID` 2 (the `_id` found in the object) to the listening client C1. -/
theorem delete_device_unregistered_notifies :
    (delete_device listening_usb { usb_ABC with id := 2 }).1 = listening_empty ∧
    (∀ d ∈ listening_empty.devices, d.ptr ≠ ({ usb_ABC with id := 2 } : Device).ptr) ∧
    (delete_device listening_empty { usb_ABC with id := 2 }).1 = listening_empty ∧
    (delete_device listening_empty { usb_ABC with id := 2 }).2 =
      [Event.send client_C1.ptr 0 (detached_plist 2) []] ∧
    sends_to client_C1.ptr (delete_device listening_empty { usb_ABC with id := 2 }).2 =
      [(0, detached_plist 2, [])] ∧
    plist_dict_get_item "MessageType" (detached_plist 2) = some (plist.string "Detached") ∧
    plist_dict_get_item "DeviceID" (detached_plist 2) = some (plist.uint 2) :=
  ⟨by decide, by decide, by decide, rfl, rfl, rfl, rfl⟩


/-! ## Termination of the loop at `retryID` -/

theorem scan_pass_some_of_length {L : List Device} {n : Nat} (h : n + L.length ≤ MAXID) :
    ∃ k, scan_pass n L = some k := by
  induction L generalizing n with
  | nil => exact ⟨n, rfl⟩
  | cons e rest ih =>
    simp only [List.length_cons] at h
    unfold scan_pass
    split
    · rw [if_neg (by omega)]
      exact ih (by omega)
    · exact ih (by omega)

theorem retryID_none_of_pass_none {L : List Device} (h : scan_pass 1 L = none) (fuel : Nat) :
    retryID L fuel 1 = none := by
  induction fuel with
  | zero => rfl
  | succ f ih => simp [retryID, h, ih]

/-- A third traversal at `retryID` would repeat the second: two are all that can be
needed. -/
theorem retryID_fuel (L : List Device) (fuel n : Nat) :
    retryID L (fuel + 2) n = retryID L 2 n := by
  cases h1 : scan_pass n L with
  | some k => simp [retryID, h1]
  | none =>
    cases h2 : scan_pass 1 L with
    | some k => simp [retryID, h1, h2]
    | none => simp [retryID, h1, h2, retryID_none_of_pass_none h2 fuel]

/-- When two traversals at `retryID` do not come to an end, no number of traversals
does: the code does not leave the loop. -/
theorem retryID_diverges {L : List Device} {n : Nat} (h : retryID L 2 n = none) (fuel : Nat) :
    retryID L fuel n = none := by
  cases h1 : scan_pass n L with
  | some k => simp [retryID, h1] at h
  | none =>
    cases h2 : scan_pass 1 L with
    | some k => simp [retryID, h1, h2] at h
    | none =>
      cases fuel with
      | zero => rfl
      | succ f => simp [retryID, h1, retryID_none_of_pass_none h2 f]

/-- More traversals allowed than two do not change what `add_device` does. -/
theorem add_device_fuel_eq (fuel : Nat) (E : Env) (m : Muxer) (dev : Device) :
    add_device_fuel (fuel + 2) E m dev = add_device E m dev := by
  unfold add_device add_device_fuel alloc_id
  simp only [retryID_fuel]

theorem set_id_length (p v : Nat) (L : List Device) : (set_id p v L).length = L.length := by
  induction L with
  | nil => rfl
  | cons e rest ih =>
    unfold set_id
    split <;> simp [ih]

theorem retryID_some_of_length {L : List Device} (h : L.length < MAXID) (n : Nat) :
    ∃ k, retryID L 2 n = some k := by
  cases h1 : scan_pass n L with
  | some k => exact ⟨k, by simp [retryID, h1]⟩
  | none =>
    obtain ⟨k, hk⟩ := scan_pass_some_of_length (L := L) (n := 1) (by omega)
    exact ⟨k, by simp [retryID, h1, hk]⟩

/-- `add_device` returns when fewer than `MAXID` devices are registered. -/
theorem alloc_id_some_of_length {m : Muxer} (dev : Device) (h : m.devices.length < MAXID) :
    ∃ id1 newid, alloc_id 2 m dev = some (id1, newid) := by
  unfold alloc_id
  simp only
  split
  · obtain ⟨k, hk⟩ := retryID_some_of_length
      (L := set_id dev.ptr
        (clear_bit0 (id_for_device dev.serial (other_conntype dev.conntype) m.devices))
        m.devices)
      (by rw [set_id_length]; exact h) m.newid
    rw [hk]
    exact ⟨_, _, rfl⟩
  · exact ⟨_, _, rfl⟩

/-! ## The sends of a notification -/

theorem set_erase_set_insert {x : Device} {L : List Device} (h : ∀ d ∈ L, d.ptr ≠ x.ptr) :
    set_erase x.ptr (set_insert x L) = L := by
  induction L with
  | nil => simp [set_insert, set_erase]
  | cons e rest ih =>
    have he : e.ptr ≠ x.ptr := h e (List.mem_cons_self _ _)
    have hr := ih (fun d hd => h d (List.mem_cons_of_mem _ hd))
    unfold set_insert
    split
    · simp [set_erase]
    · rw [if_neg (fun hc => he hc.symm)]
      simp [set_erase, he, hr]

theorem sends_to_fan_out_of_not_mem {doc : plist} {regs : List Device} {p : Nat}
    {cs : List Client} (h : ∀ c ∈ cs, c.ptr ≠ p) : sends_to p (fan_out doc regs cs) = [] := by
  induction cs with
  | nil => rfl
  | cons c rest ih =>
    have hc := h c (List.mem_cons_self _ _)
    have hr := ih (fun d hd => h d (List.mem_cons_of_mem _ hd))
    unfold fan_out
    split
    · simp [sends_to, hc, hr]
    · exact hr

/-- A notification reaches a registered client once if it is listening, and not at all
if it is not. -/
theorem sends_to_fan_out {doc : plist} {regs : List Device} {c : Client} {cs : List Client}
    (hd : (cs.map (fun c => c.ptr)).Nodup) (hc : c ∈ cs) :
    sends_to c.ptr (fan_out doc regs cs) =
      if c.isListening = true then [(0, doc, regs)] else [] := by
  induction cs with
  | nil => exact absurd hc (List.not_mem_nil c)
  | cons e rest ih =>
    simp only [List.map_cons, List.nodup_cons, List.mem_map, not_exists, not_and] at hd
    rcases List.mem_cons.mp hc with rfl | hc
    · have hrest : sends_to c.ptr (fan_out doc regs rest) = [] :=
        sends_to_fan_out_of_not_mem (fun d hd' => hd.1 d hd')
      unfold fan_out
      by_cases hl : c.isListening = true
      · simp [hl, sends_to, hrest]
      · simp [hl, hrest]
    · have hne : e.ptr ≠ c.ptr := fun h => hd.1 c hc h.symm
      unfold fan_out
      split
      · simp only [sends_to, hne, if_false]
        exact ih hd.2 hc
      · exact ih hd.2 hc

theorem sends_to_append (p : Nat) (a b : List Event) :
    sends_to p (a ++ b) = sends_to p a ++ sends_to p b := by
  induction a with
  | nil => rfl
  | cons e rest ih =>
    cases e with
    | send c tag doc regs =>
      simp only [List.cons_append, sends_to]
      split <;> simp [ih]
    | kill c => simpa [sends_to] using ih
    | preflight_device s i => simpa [sends_to] using ih
    | start_connect d p' c => simpa [sends_to] using ih

theorem attached_plist_fields (E : Env) (dev : Device) :
    plist_dict_get_item "MessageType" (getDevicePlist E dev) = some (plist.string "Attached") ∧
    plist_dict_get_item "DeviceID" (getDevicePlist E dev) = some (plist.uint dev.id) := by
  constructor <;> simp [getDevicePlist, plist_dict_set_item, plist_dict_get_item, List.lookup]

theorem detached_plist_fields (i : Nat) :
    plist_dict_get_item "MessageType" (detached_plist i) = some (plist.string "Detached") ∧
    plist_dict_get_item "DeviceID" (detached_plist i) = some (plist.uint i) := by
  constructor <;> simp [detached_plist, plist_dict_set_item, plist_dict_get_item, List.lookup]


/-! ## C8, C9: `add_device` and the notifications -/

/-- What `add_device` does when the loop of the Wi-Fi device does not start: the device
is inserted with the id allocated and `delete_device(dev)` is called. -/
theorem add_device_of_start_failed {E : Env} {m : Muxer} {dev : Device} {id1 newid : Nat}
    (ha : alloc_id 2 m dev = some (id1, newid)) (hw : dev.conntype = MUXCONN_WIFI)
    (hthrows :
      (E.wifi_startLoop { dev with id := id1 ||| wifi_flag dev.conntype }).isSome = true) :
    add_device E m dev = some
      { muxer := (delete_device
          { m with
            devices := set_insert { dev with id := id1 ||| wifi_flag dev.conntype } m.devices,
            newid := newid }
          { dev with id := id1 ||| wifi_flag dev.conntype }).1,
        dev := { dev with id := id1 ||| wifi_flag dev.conntype },
        events := (delete_device
          { m with
            devices := set_insert { dev with id := id1 ||| wifi_flag dev.conntype } m.devices,
            newid := newid }
          { dev with id := id1 ||| wifi_flag dev.conntype }).2 } := by
  unfold add_device add_device_fuel
  rw [ha]
  simp only
  obtain ⟨e, he⟩ := Option.isSome_iff_exists.mp hthrows
  simp only [hw, if_true] at he ⊢
  simp only [he]

/-- Counterexample to C8: the loop of the Wi-Fi device "ABC" does not start, the
listening client C1 is registered; `add_device` leaves the registry empty and sends C1 a
`Detached` document with `DeviceID` 3. -/
theorem add_device_start_failure_counterexample :
    (env_wifi_fails.wifi_startLoop { wifi_ABC with id := 3 }).isSome = true ∧
    (add_device env_wifi_fails listening_empty wifi_ABC).map
      (fun r => (r.muxer.devices, r.dev.id)) = some ([], 3) ∧
    (add_device env_wifi_fails listening_empty wifi_ABC).map (fun r => r.events) =
      some [Event.send client_C1.ptr 0 (detached_plist 3) []] ∧
    (add_device env_wifi_fails listening_empty wifi_ABC).map (fun r => r.events.length) ≠
      some 0 :=
  ⟨by decide, by decide, rfl, by decide⟩

/-- C8, as amended. When the loop of a Wi-Fi device that is not registered does not
start (fewer than `MAXID` devices being registered), `add_device` returns with the
registry equal to what it was before the call; the only calls made are the sends of one
`Detached` document, carrying the id assigned to the device, to the listening clients:
every registered client that is listening is sent it once, a client that is not
listening is sent nothing, and no `Attached` document is sent. -/
theorem add_device_start_failure (E : Env) (m : Muxer) (dev : Device)
    (hw : dev.conntype = MUXCONN_WIFI)
    (hthrows : ∀ i, (E.wifi_startLoop { dev with id := i }).isSome = true)
    (hnew : ∀ d ∈ m.devices, d.ptr ≠ dev.ptr) (hlen : m.devices.length < MAXID)
    (hdc : distinct_clients m) :
    ∃ r, add_device E m dev = some r ∧
      r.muxer.devices = m.devices ∧ r.muxer.clients = m.clients ∧
      r.events = fan_out (detached_plist r.dev.id) m.devices m.clients ∧
      (∀ c ∈ m.clients, sends_to c.ptr r.events =
        if c.isListening = true then [(0, detached_plist r.dev.id, m.devices)] else []) ∧
      plist_dict_get_item "MessageType" (detached_plist r.dev.id) =
        some (plist.string "Detached") ∧
      plist_dict_get_item "DeviceID" (detached_plist r.dev.id) = some (plist.uint r.dev.id) := by
  obtain ⟨id1, newid, ha⟩ := alloc_id_some_of_length dev hlen
  have hadd := add_device_of_start_failed (E := E) ha hw (hthrows _)
  have hdevs : set_erase dev.ptr
      (set_insert { dev with id := id1 ||| wifi_flag dev.conntype } m.devices) = m.devices :=
    set_erase_set_insert (x := { dev with id := id1 ||| wifi_flag dev.conntype }) hnew
  have hev : (delete_device
      { m with
        devices := set_insert { dev with id := id1 ||| wifi_flag dev.conntype } m.devices,
        newid := newid }
      { dev with id := id1 ||| wifi_flag dev.conntype }).2 =
      fan_out (detached_plist (id1 ||| wifi_flag dev.conntype)) m.devices m.clients := by
    simp only [delete_device, notify_device_remove, hdevs]
  refine ⟨_, hadd, ?_, rfl, hev, ?_, (detached_plist_fields _).1, (detached_plist_fields _).2⟩
  · simp only [delete_device, hdevs]
  · intro c hc
    simp only [hev]
    exact sends_to_fan_out hdc hc

/-- Witness of C8 as amended: the Wi-Fi device "ABC" does not start while the USB
device (id 2) and the listening client C1 are registered. -/
theorem add_device_start_failure_witness :
    ∃ r, add_device env_wifi_fails { after_usb with clients := [client_C1] } wifi_ABC = some r ∧
      r.muxer.devices = [{ usb_ABC with id := 2 }] ∧ r.muxer.clients = [client_C1] ∧
      r.events = fan_out (detached_plist r.dev.id) [{ usb_ABC with id := 2 }] [client_C1] ∧
      (∀ c ∈ [client_C1], sends_to c.ptr r.events =
        if c.isListening = true then
          [(0, detached_plist r.dev.id, [{ usb_ABC with id := 2 }])] else []) ∧
      plist_dict_get_item "MessageType" (detached_plist r.dev.id) =
        some (plist.string "Detached") ∧
      plist_dict_get_item "DeviceID" (detached_plist r.dev.id) = some (plist.uint r.dev.id) :=
  add_device_start_failure env_wifi_fails { after_usb with clients := [client_C1] } wifi_ABC
    rfl (fun _ => rfl) (by decide) (by decide) (by decide)

/-- C9. `add_device(dev)` for a device that is not registered (its loop starting if it
is a Wi-Fi device, fewer than `MAXID` devices being registered) followed by
`delete_device(dev)` sends a registered, listening client exactly two documents: first
`Attached`, then `Detached`, both with the id assigned to `dev`. The device is
registered when `Attached` is sent and is not when `Detached` is sent, and the registry
afterwards is the registry before. -/
theorem add_then_delete_notifications (E : Env) (m : Muxer) (dev : Device) (c : Client)
    (hstart : dev.conntype = MUXCONN_WIFI → ∀ i, E.wifi_startLoop { dev with id := i } = none)
    (hnew : ∀ d ∈ m.devices, d.ptr ≠ dev.ptr) (hlen : m.devices.length < MAXID)
    (hdc : distinct_clients m) (hc : c ∈ m.clients) (hl : c.isListening = true) :
    ∃ r, add_device E m dev = some r ∧
      sends_to c.ptr (r.events ++ (delete_device r.muxer r.dev).2) =
        [(0, getDevicePlist E r.dev, r.muxer.devices),
         (0, detached_plist r.dev.id, (delete_device r.muxer r.dev).1.devices)] ∧
      plist_dict_get_item "MessageType" (getDevicePlist E r.dev) =
        some (plist.string "Attached") ∧
      plist_dict_get_item "DeviceID" (getDevicePlist E r.dev) = some (plist.uint r.dev.id) ∧
      plist_dict_get_item "MessageType" (detached_plist r.dev.id) =
        some (plist.string "Detached") ∧
      plist_dict_get_item "DeviceID" (detached_plist r.dev.id) = some (plist.uint r.dev.id) ∧
      r.dev.ptr = dev.ptr ∧ r.dev ∈ r.muxer.devices ∧
      (∀ d ∈ (delete_device r.muxer r.dev).1.devices, d.ptr ≠ dev.ptr) ∧
      (delete_device r.muxer r.dev).1.devices = m.devices ∧
      (delete_device r.muxer r.dev).1.clients = m.clients := by
  obtain ⟨id1, newid, ha⟩ := alloc_id_some_of_length dev hlen
  have hadd := add_device_of_started (E := E) ha (fun hw => hstart hw _)
  have hdevs : set_erase dev.ptr
      (set_insert { dev with id := id1 ||| wifi_flag dev.conntype } m.devices) = m.devices :=
    set_erase_set_insert (x := { dev with id := id1 ||| wifi_flag dev.conntype }) hnew
  refine ⟨_, hadd, ?_, (attached_plist_fields E _).1, (attached_plist_fields E _).2,
    (detached_plist_fields _).1, (detached_plist_fields _).2, rfl,
    self_mem_set_insert _ _, ?_, ?_, rfl⟩
  · simp only [sends_to_append, delete_device, notify_device_remove, notify_device_add, hdevs]
    have h1 : sends_to c.ptr
        (if dev.conntype = MUXCONN_USB ∧ m.doPreflight = true then
          [Event.preflight_device dev.serial (id1 ||| wifi_flag dev.conntype)] else []) = [] := by
      split <;> rfl
    rw [h1, sends_to_fan_out hdc hc, sends_to_fan_out hdc hc]
    simp [hl]
  · simp only [delete_device, hdevs]
    exact hnew
  · simp only [delete_device, hdevs]

/-- Witness of C9: the Wi-Fi device "ABC" is added and deleted while the USB device
(id 2) and the listening client C1 are registered; C1 is sent `Attached` and then
`Detached`, both with `DeviceID` 3. -/
theorem add_then_delete_notifications_witness :
    (add_device env_ok { after_usb with clients := [client_C1] } wifi_ABC).map
      (fun r => (r.dev.id, r.muxer.devices.map (fun d => d.id),
        (delete_device r.muxer r.dev).1.devices.map (fun d => d.id))) = some (3, [2, 3], [2]) ∧
    ∃ r, add_device env_ok { after_usb with clients := [client_C1] } wifi_ABC = some r ∧
      sends_to client_C1.ptr (r.events ++ (delete_device r.muxer r.dev).2) =
        [(0, getDevicePlist env_ok r.dev, r.muxer.devices),
         (0, detached_plist r.dev.id, (delete_device r.muxer r.dev).1.devices)] ∧
      plist_dict_get_item "MessageType" (getDevicePlist env_ok r.dev) =
        some (plist.string "Attached") ∧
      plist_dict_get_item "DeviceID" (getDevicePlist env_ok r.dev) = some (plist.uint r.dev.id) ∧
      plist_dict_get_item "MessageType" (detached_plist r.dev.id) =
        some (plist.string "Detached") ∧
      plist_dict_get_item "DeviceID" (detached_plist r.dev.id) = some (plist.uint r.dev.id) ∧
      r.dev.ptr = wifi_ABC.ptr ∧ r.dev ∈ r.muxer.devices ∧
      (∀ d ∈ (delete_device r.muxer r.dev).1.devices, d.ptr ≠ wifi_ABC.ptr) ∧
      (delete_device r.muxer r.dev).1.devices = [{ usb_ABC with id := 2 }] ∧
      (delete_device r.muxer r.dev).1.clients = [client_C1] :=
  ⟨by decide,
    add_then_delete_notifications env_ok { after_usb with clients := [client_C1] } wifi_ABC
      client_C1 (fun _ _ => rfl) (by decide) (by decide) (by decide) (by decide) rfl⟩

/-! ## C10: connection dispatch -/

theorem find_device_eq (device_id : Int) (L : List Device) :
    (find_device device_id L = none ∧ ∀ d ∈ L, (d.id : Int) ≠ device_id) ∨
    ∃ d ∈ L, (d.id : Int) = device_id ∧ find_device device_id L = some d := by
  induction L with
  | nil => left; simp [find_device]
  | cons e rest ih =>
    unfold find_device
    split
    · rename_i he
      right
      exact ⟨e, List.mem_cons_self _ _, he, rfl⟩
    · rename_i he
      rcases ih with ⟨h0, hall⟩ | ⟨d, hd, h1, h2⟩
      · left
        refine ⟨h0, ?_⟩
        intro d hd
        rcases List.mem_cons.mp hd with rfl | hd
        · exact he
        · exact hall d hd
      · right
        exact ⟨d, List.mem_cons_of_mem _ hd, h1, h2⟩

/-- C10. `start_connect(device_id, dport, cli)` fails with its own error (no such
device) if and only if no registered device has the id `device_id`; then the state is
unchanged and no call is made. Otherwise it calls `start_connect(dport, cli)` once, on
a registered device with that id, leaves the state unchanged, and fails exactly when
that call fails, with the exception of that call. -/
theorem start_connect_dispatch (E : Env) (m : Muxer) (device_id : Int) (dport : Nat)
    (cli : Client) :
    ((start_connect E m device_id dport cli).1 = Except.error ConnectError.no_such_device ↔
      ¬ ∃ d ∈ m.devices, (d.id : Int) = device_id) ∧
    ((¬ ∃ d ∈ m.devices, (d.id : Int) = device_id) →
      (start_connect E m device_id dport cli).2.1 = m ∧
      (start_connect E m device_id dport cli).2.2 = []) ∧
    ((∃ d ∈ m.devices, (d.id : Int) = device_id) →
      ∃ d ∈ m.devices, (d.id : Int) = device_id ∧
        (start_connect E m device_id dport cli).2.2 =
          [Event.start_connect d.ptr dport cli.ptr] ∧
        (start_connect E m device_id dport cli).2.1 = m ∧
        ((start_connect E m device_id dport cli).1 = Except.ok () ↔
          E.dev_start_connect d dport cli = none) ∧
        (∀ e, E.dev_start_connect d dport cli = some e ↔
          (start_connect E m device_id dport cli).1 =
            Except.error (ConnectError.rethrown e))) := by
  rcases find_device_eq device_id m.devices with ⟨h0, hall⟩ | ⟨d, hd, h1, h2⟩
  · have hno : ¬ ∃ d ∈ m.devices, (d.id : Int) = device_id := by
      rintro ⟨d, hd, h⟩
      exact hall d hd h
    refine ⟨?_, ?_, fun h => absurd h hno⟩
    · simp [start_connect, h0, hno]
    · intro _
      simp [start_connect, h0]
  · have hyes : ∃ d ∈ m.devices, (d.id : Int) = device_id := ⟨d, hd, h1⟩
    refine ⟨?_, fun h => absurd hyes h, fun _ => ⟨d, hd, h1, ?_⟩⟩
    · cases he : E.dev_start_connect d dport cli <;> simp [start_connect, h2, he, hyes]
    · cases he : E.dev_start_connect d dport cli <;> simp [start_connect, h2, he]

/-- Scenario 6: `start_connect(42, 62078, C1)` with no device 42 fails, the state is
unchanged and no call is made. -/
theorem start_connect_dispatch_witness :
    (start_connect env_ok listening_usb_wifi 42 62078 client_C1).1 =
      Except.error ConnectError.no_such_device ∧
    (start_connect env_ok listening_usb_wifi 42 62078 client_C1).2.1 = listening_usb_wifi ∧
    (start_connect env_ok listening_usb_wifi 42 62078 client_C1).2.2 = [] :=
  ⟨(start_connect_dispatch env_ok listening_usb_wifi 42 62078 client_C1).1.mpr (by decide),
    ((start_connect_dispatch env_ok listening_usb_wifi 42 62078 client_C1).2.1 (by decide)).1,
    ((start_connect_dispatch env_ok listening_usb_wifi 42 62078 client_C1).2.1 (by decide)).2⟩

/-! ## C11: the fan-out of a notification -/

theorem fan_out_try_eq (E : Env) (doc : plist) (regs : List Device) (cs : List Client) :
    fan_out_try E doc regs cs = (none, fan_out doc regs cs) := by
  induction cs with
  | nil => rfl
  | cons c rest ih =>
    unfold fan_out_try fan_out
    split
    · simp [ih, swallow, send_plist_pkt]
    · exact ih

/-- C11. For each of the notifications `Attached`, `Detached` and `Paired`, whatever
sends fail: no exception leaves the operation, the sends made are those of the loop in
which every exception of a send is swallowed, every registered client that is listening
is sent the document exactly once, with tag 0, and a client that is not listening, or
is not registered, is sent nothing. -/
theorem notification_fan_out (E : Env) (m : Muxer) (dev : Device) (deviceID : Nat)
    (hdc : distinct_clients m) :
    fan_out_try E (getDevicePlist E dev) m.devices m.clients =
      (none, notify_device_add E m dev) ∧
    fan_out_try E (detached_plist deviceID) m.devices m.clients =
      (none, notify_device_remove m deviceID) ∧
    fan_out_try E (paired_plist deviceID) m.devices m.clients =
      (none, notify_device_paired m deviceID) ∧
    (∀ c ∈ m.clients,
      sends_to c.ptr (notify_device_add E m dev) =
        (if c.isListening = true then [(0, getDevicePlist E dev, m.devices)] else []) ∧
      sends_to c.ptr (notify_device_remove m deviceID) =
        (if c.isListening = true then [(0, detached_plist deviceID, m.devices)] else []) ∧
      sends_to c.ptr (notify_device_paired m deviceID) =
        (if c.isListening = true then [(0, paired_plist deviceID, m.devices)] else [])) ∧
    (∀ p, (∀ c ∈ m.clients, c.ptr ≠ p) →
      sends_to p (notify_device_add E m dev) = [] ∧
      sends_to p (notify_device_remove m deviceID) = [] ∧
      sends_to p (notify_device_paired m deviceID) = []) := by
  refine ⟨fan_out_try_eq _ _ _ _, fan_out_try_eq _ _ _ _, fan_out_try_eq _ _ _ _, ?_, ?_⟩
  · intro c hc
    exact ⟨sends_to_fan_out hdc hc, sends_to_fan_out hdc hc, sends_to_fan_out hdc hc⟩
  · intro p hp
    exact ⟨sends_to_fan_out_of_not_mem hp, sends_to_fan_out_of_not_mem hp,
      sends_to_fan_out_of_not_mem hp⟩

/-- Witness of C11: every send fails; of the clients C1 (listening), C2 (not listening)
and C3 (listening), C1 and C3 are each sent `Detached` once and C2 is sent nothing. -/
theorem notification_fan_out_witness :
    distinct_clients three_clients ∧
    env_send_fails.send_throws client_C1.ptr 0 (detached_plist 2) = true ∧
    fan_out_try env_send_fails (detached_plist 2) three_clients.devices three_clients.clients =
      (none, notify_device_remove three_clients 2) ∧
    sends_to client_C1.ptr (notify_device_remove three_clients 2) =
      [(0, detached_plist 2, three_clients.devices)] ∧
    sends_to client_C2.ptr (notify_device_remove three_clients 2) = [] ∧
    sends_to client_C3.ptr (notify_device_remove three_clients 2) =
      [(0, detached_plist 2, three_clients.devices)] :=
  ⟨by decide, rfl,
    (notification_fan_out env_send_fails three_clients usb_ABC 2 (by decide)).2.1,
    ((notification_fan_out env_send_fails three_clients usb_ABC 2 (by decide)).2.2.2.1
      client_C1 (by decide)).2.1,
    ((notification_fan_out env_send_fails three_clients usb_ABC 2 (by decide)).2.2.2.1
      client_C2 (by decide)).2.1,
    ((notification_fan_out env_send_fails three_clients usb_ABC 2 (by decide)).2.2.2.1
      client_C3 (by decide)).2.1⟩

/-! ## C12, C13, C14: `NetworkAddress` -/

set_option maxRecDepth 100000 in
theorem toString_no_colon : ∀ a < 256, ':' ∉ (toString a).data := by decide

theorem dotted_quad_no_colon {a b c d : Nat} (ha : a < 256) (hb : b < 256) (hc : c < 256)
    (hd : d < 256) : ':' ∉ (dotted_quad a b c d).data := by
  have h1 := toString_no_colon a ha
  have h2 := toString_no_colon b hb
  have h3 := toString_no_colon c hc
  have h4 := toString_no_colon d hd
  simp only [dotted_quad, String.data_append, List.mem_append, not_or]
  refine ⟨⟨⟨⟨⟨⟨h1, ?_⟩, h2⟩, ?_⟩, h3⟩, ?_⟩, h4⟩ <;> decide

theorem props_of_wifi (E : Env) (dev : Device) (hw : dev.conntype = MUXCONN_WIFI) :
    plist_dict_get_item "Properties" (getDevicePlist E dev) =
      some (plist.dict (device_props E dev)) ∧
    plist_dict_get_item "ConnectionType" (plist.dict (device_props E dev)) =
      some (plist.string "Network") ∧
    plist_dict_get_item "NetworkAddress" (plist.dict (device_props E dev)) =
      (network_address E dev.ipaddr).map plist.data := by
  refine ⟨?_, ?_, ?_⟩
  · simp [getDevicePlist, plist_dict_set_item, plist_dict_get_item, List.lookup]
  · cases h : network_address E dev.ipaddr <;>
      simp [device_props, hw, h, plist_dict_set_item, plist_dict_get_item, List.lookup]
  · cases h : network_address E dev.ipaddr <;>
      simp [device_props, hw, h, plist_dict_set_item, plist_dict_get_item, List.lookup]

/-- C12. For a Wi-Fi device whose first address is the dotted quad `a.b.c.d`, which libc
parses to the bytes `a, b, c, d`, on a little-endian host: `Properties` of the `Attached`
document has `ConnectionType = "Network"` and `NetworkAddress` is the 16 bytes
`10 02 00 00 a b c d` followed by eight zero bytes. -/
theorem network_address_ipv4 (E : Env) (dev : Device) (a b c d : Nat) (rest : List String)
    (hw : dev.conntype = MUXCONN_WIFI)
    (ha : a < 256) (hb : b < 256) (hc : c < 256) (hd : d < 256)
    (haddr : dev.ipaddr = dotted_quad a b c d :: rest)
    (hparse : u32_bytes E (E.inet_addr (dotted_quad a b c d)) = [a, b, c, d])
    (hle : E.big_endian = false) :
    plist_dict_get_item "Properties" (getDevicePlist E dev) =
      some (plist.dict (device_props E dev)) ∧
    plist_dict_get_item "ConnectionType" (plist.dict (device_props E dev)) =
      some (plist.string "Network") ∧
    plist_dict_get_item "NetworkAddress" (plist.dict (device_props E dev)) =
      some (plist.data [0x10, 0x02, 0, 0, a, b, c, d, 0, 0, 0, 0, 0, 0, 0, 0]) := by
  obtain ⟨h1, h2, h3⟩ := props_of_wifi E dev hw
  refine ⟨h1, h2, ?_⟩
  rw [h3, haddr]
  have hno := dotted_quad_no_colon ha hb hc hd
  have hpre : u32_bytes E 0x0210 = [0x10, 0x02, 0, 0] := by
    simp [u32_bytes, hle]
  simp [network_address, hno, ipv4_blob, hparse, hpre]

/-- Witness of C12 (scenario 3): the address 192.0.2.7 gives
`10 02 00 00 C0 00 02 07 00 00 00 00 00 00 00 00`. -/
theorem network_address_ipv4_witness :
    dotted_quad 192 0 2 7 = "192.0.2.7" ∧
    wifi_ABC.ipaddr = ["192.0.2.7"] ∧
    plist_dict_get_item "ConnectionType" (plist.dict (device_props env_parse wifi_ABC)) =
      some (plist.string "Network") ∧
    plist_dict_get_item "NetworkAddress" (plist.dict (device_props env_parse wifi_ABC)) =
      some (plist.data
        [0x10, 0x02, 0x00, 0x00, 0xC0, 0x00, 0x02, 0x07, 0, 0, 0, 0, 0, 0, 0, 0]) :=
  ⟨by decide, by decide,
    (network_address_ipv4 env_parse wifi_ABC 192 0 2 7 [] rfl (by decide) (by decide)
      (by decide) (by decide) (by decide) (by decide) rfl).2.1,
    (network_address_ipv4 env_parse wifi_ABC 192 0 2 7 [] rfl (by decide) (by decide)
      (by decide) (by decide) (by decide) (by decide) rfl).2.2⟩

/-- C13 (code at the failing input). The first address "999.1.1.1" looks like IPv4 and
does not parse (`inet_addr` returns `INADDR_NONE`), the second is a valid IPv6 address:
the address that does not parse is not skipped, `NetworkAddress` is
`10 02 00 00 FF FF FF FF` and eight zero bytes; and with "999.1.1.1" as the only address
`NetworkAddress` is not left out. An address that looks like IPv6 and does not parse is
skipped, and with only such addresses there is no `NetworkAddress`. -/
theorem network_address_unparsable_ipv4 :
    env_parse.inet_addr "999.1.1.1" = 0xFFFFFFFF ∧
    (env_parse.inet_pton6 "fe80::1").isSome = true ∧
    wifi_bad_v4.ipaddr = ["999.1.1.1", "fe80::1"] ∧
    plist_dict_get_item "NetworkAddress" (plist.dict (device_props env_parse wifi_bad_v4)) =
      some (plist.data [0x10, 0x02, 0, 0, 0xFF, 0xFF, 0xFF, 0xFF, 0, 0, 0, 0, 0, 0, 0, 0]) ∧
    plist_dict_get_item "NetworkAddress"
        (plist.dict (device_props env_parse { wifi_ABC with ipaddr := ["999.1.1.1"] })) =
      some (plist.data [0x10, 0x02, 0, 0, 0xFF, 0xFF, 0xFF, 0xFF, 0, 0, 0, 0, 0, 0, 0, 0]) ∧
    env_parse.inet_pton6 "fe80::zz" = none ∧
    wifi_bad_v6.ipaddr = ["fe80::zz", "fe80::1"] ∧
    network_address env_parse wifi_bad_v6.ipaddr = network_address env_parse ["fe80::1"] ∧
    plist_dict_get_item "NetworkAddress"
        (plist.dict (device_props env_parse { wifi_ABC with ipaddr := ["fe80::zz"] })) = none :=
  ⟨by decide, by decide, by decide, rfl, rfl, by decide, by decide, by decide, rfl⟩

theorem round_up_ge (x a : Nat) (ha : 1 ≤ a) : x ≤ (x + a - 1) / a * a := by
  have h1 := Nat.div_add_mod (x + a - 1) a
  have h2 := Nat.mod_lt (x + a - 1) (by omega : a > 0)
  have h3 : a * ((x + a - 1) / a) = (x + a - 1) / a * a := Nat.mul_comm _ _
  omega

theorem DataStruct_layout (E : Env) :
    2 ≤ DataStruct_ip6_offset E ∧ DataStruct_ip6_offset E + 16 ≤ DataStruct_sizeof E := by
  have ha : 1 ≤ max 1 E.in6_align := Nat.le_max_left _ _
  exact ⟨round_up_ge 2 _ ha, round_up_ge _ _ ha⟩

theorem ipv6_blob_length (E : Env) (ip6 : List Nat) :
    (ipv6_blob E ip6).length = DataStruct_sizeof E := by
  obtain ⟨h1, h2⟩ := DataStruct_layout E
  simp only [ipv6_blob, List.length_append, List.length_cons, List.length_nil,
    List.length_replicate, List.length_take]
  omega

/-- Counterexample to C14: with the usual 4-byte alignment of `in6_addr` the blob for
the address fe80::1 has 20 bytes and starts with `14 1E`; and on no platform it has
fewer than 18 bytes. -/
theorem network_address_ipv6_counterexample :
    wifi_v6.ipaddr = ["fe80::1"] ∧ env_parse.in6_align = 4 ∧
    plist_dict_get_item "NetworkAddress" (plist.dict (device_props env_parse wifi_v6)) =
      some (plist.data
        [0x14, 0x1E, 0, 0, 0xfe, 0x80, 0, 0, 0, 0, 0, 0, 0, 0, 0, 0, 0, 0, 0, 1]) ∧
    (ipv6_blob env_parse [0xfe, 0x80, 0, 0, 0, 0, 0, 0, 0, 0, 0, 0, 0, 0, 0, 1]).length = 20 ∧
    (ipv6_blob env_parse [0xfe, 0x80, 0, 0, 0, 0, 0, 0, 0, 0, 0, 0, 0, 0, 0, 1])[0]? ≠
      some 0x10 ∧
    ∀ (E : Env) (ip6 : List Nat), 18 ≤ (ipv6_blob E ip6).length :=
  ⟨by decide, by decide, rfl, by decide, by decide,
    fun E ip6 => by
      have := DataStruct_layout E
      rw [ipv6_blob_length]
      omega⟩

/-- C14, as amended. For a Wi-Fi device whose first address is a valid IPv6 address,
`NetworkAddress` is the object `data` of type `DataStruct`: `sizeof(DataStruct)` bytes
(at least 18), byte 0 (`len`) is `sizeof(DataStruct)`, byte 1 (`family`) is `0x1E`, and
the 16 bytes of the parsed `in6_addr` stand at the offset of the member `ip6`. With
4-byte alignment of `in6_addr` these are the 20 bytes `14 1E`, two padding bytes and the
address; without padding they are the 18 bytes `12 1E` and the address. -/
theorem network_address_ipv6 (E : Env) (dev : Device) (s : String) (rest : List String)
    (ip6 : List Nat) (hw : dev.conntype = MUXCONN_WIFI) (haddr : dev.ipaddr = s :: rest)
    (hcolon : ':' ∈ s.data) (hparse : E.inet_pton6 s = some ip6) (hlen : ip6.length = 16) :
    plist_dict_get_item "NetworkAddress" (plist.dict (device_props E dev)) =
      some (plist.data (ipv6_blob E ip6)) ∧
    (ipv6_blob E ip6).length = DataStruct_sizeof E ∧
    18 ≤ DataStruct_sizeof E ∧
    (ipv6_blob E ip6)[0]? = some (DataStruct_sizeof E % 256) ∧
    (ipv6_blob E ip6)[1]? = some 0x1E ∧
    ((ipv6_blob E ip6).drop (DataStruct_ip6_offset E)).take 16 = ip6 ∧
    (E.in6_align = 4 → ipv6_blob E ip6 = [0x14, 0x1E, E.pad_byte, E.pad_byte] ++ ip6) ∧
    (E.in6_align = 1 → ipv6_blob E ip6 = [0x12, 0x1E] ++ ip6) := by
  obtain ⟨h1, h2⟩ := DataStruct_layout E
  have htake : (ip6 ++ List.replicate 16 0).take 16 = ip6 := List.take_left' hlen
  refine ⟨?_, ipv6_blob_length E ip6, by omega, ?_, ?_, ?_, ?_, ?_⟩
  · rw [(props_of_wifi E dev hw).2.2, haddr]
    simp [network_address, hcolon, hparse]
  · simp [ipv6_blob]
  · simp [ipv6_blob]
  · have hpre : ([DataStruct_sizeof E % 256, 0x1E]
        ++ List.replicate (DataStruct_ip6_offset E - 2) E.pad_byte).length =
        DataStruct_ip6_offset E := by
      simp only [List.length_append, List.length_cons, List.length_nil, List.length_replicate]
      omega
    unfold ipv6_blob
    rw [htake, List.append_assoc, List.drop_left' hpre, List.take_left' hlen]
  · intro h4
    unfold ipv6_blob
    rw [htake]
    simp [DataStruct_sizeof, DataStruct_ip6_offset, h4, List.replicate]
  · intro h1'
    unfold ipv6_blob
    rw [htake]
    simp [DataStruct_sizeof, DataStruct_ip6_offset, h1']

/-- Witness of C14 as amended: the address fe80::1 with 4-byte alignment. -/
theorem network_address_ipv6_witness :
    plist_dict_get_item "NetworkAddress" (plist.dict (device_props env_parse wifi_v6)) =
      some (plist.data
        (ipv6_blob env_parse [0xfe, 0x80, 0, 0, 0, 0, 0, 0, 0, 0, 0, 0, 0, 0, 0, 1])) ∧
    ipv6_blob env_parse [0xfe, 0x80, 0, 0, 0, 0, 0, 0, 0, 0, 0, 0, 0, 0, 0, 1] =
      [0x14, 0x1E, env_parse.pad_byte, env_parse.pad_byte] ++
        [0xfe, 0x80, 0, 0, 0, 0, 0, 0, 0, 0, 0, 0, 0, 0, 0, 1] :=
  ⟨(network_address_ipv6 env_parse wifi_v6 "fe80::1" []
      [0xfe, 0x80, 0, 0, 0, 0, 0, 0, 0, 0, 0, 0, 0, 0, 0, 1] rfl rfl (by decide) rfl rfl).1,
    (network_address_ipv6 env_parse wifi_v6 "fe80::1" []
      [0xfe, 0x80, 0, 0, 0, 0, 0, 0, 0, 0, 0, 0, 0, 0, 0, 1] rfl rfl (by decide) rfl
      rfl).2.2.2.2.2.2.1 rfl⟩

/-! ## C15, C18: control responses -/

theorem device_list_items_eq (E : Env) (L : List Device) :
    device_list_items E L = L.map (getDevicePlist E) := by
  induction L with
  | nil => rfl
  | cons d rest ih => simp [device_list_items, ih]

theorem listener_list_items_eq (L : List Client) :
    listener_list_items L = L.map getClientPlist := by
  induction L with
  | nil => rfl
  | cons c rest ih => simp [listener_list_items, ih]

theorem attached_plist_properties (E : Env) (dev : Device) :
    plist_dict_get_item "Properties" (getDevicePlist E dev) =
      some (plist.dict (device_props E dev)) := by
  simp [getDevicePlist, plist_dict_set_item, plist_dict_get_item, List.lookup]

/-- Counterexample to C15: with the USB device "ABC" (id 2) registered, the entry of
`DeviceList` is the whole `Attached` document of the device, with `MessageType` and
`DeviceID` around `Properties`; `SerialNumber` is not a key of the entry, and the
property dictionary has no `MessageType`. -/
theorem device_list_counterexample :
    (send_deviceList env_ok listening_usb client_C1 5).2.2 =
      [Event.send client_C1.ptr 5
        (plist.dict [("DeviceList", plist.array [getDevicePlist env_ok { usb_ABC with id := 2 }])])
        listening_usb.devices] ∧
    plist_dict_get_item "MessageType" (getDevicePlist env_ok { usb_ABC with id := 2 }) =
      some (plist.string "Attached") ∧
    plist_dict_get_item "DeviceID" (getDevicePlist env_ok { usb_ABC with id := 2 }) =
      some (plist.uint 2) ∧
    plist_dict_get_item "SerialNumber" (getDevicePlist env_ok { usb_ABC with id := 2 }) =
      none ∧
    plist_dict_get_item "MessageType"
      (plist.dict (device_props env_ok { usb_ABC with id := 2 })) = none ∧
    plist_dict_get_item "SerialNumber"
      (plist.dict (device_props env_ok { usb_ABC with id := 2 })) = some (plist.string "ABC") :=
  ⟨rfl, rfl, rfl, rfl, rfl, rfl⟩

/-- C15, as amended. `send_deviceList(cli, tag)` makes one call: it sends `cli`, with
that tag, one document `DeviceList: [...]` whose array has one entry per registered
device, in iteration order; each entry is the `Attached` document of that device
(`MessageType = "Attached"`, `DeviceID`, and the property dictionary under
`Properties`). The state is unchanged, and the operation fails exactly when the send
does. -/
theorem send_deviceList_entries (E : Env) (m : Muxer) (cli : Client) (tag : Nat) :
    send_deviceList E m cli tag =
      (if E.send_throws cli.ptr tag
          (plist.dict [("DeviceList", plist.array (m.devices.map (getDevicePlist E)))]) = true
        then some send_exception else none,
       m,
       [Event.send cli.ptr tag
          (plist.dict [("DeviceList", plist.array (m.devices.map (getDevicePlist E)))])
          m.devices]) ∧
    (m.devices.map (getDevicePlist E)).length = m.devices.length ∧
    ∀ d : Device,
      plist_dict_get_item "MessageType" (getDevicePlist E d) = some (plist.string "Attached") ∧
      plist_dict_get_item "DeviceID" (getDevicePlist E d) = some (plist.uint d.id) ∧
      plist_dict_get_item "Properties" (getDevicePlist E d) =
        some (plist.dict (device_props E d)) := by
  refine ⟨?_, List.length_map _ _, fun d => ?_⟩
  · simp [send_deviceList, send_plist_pkt, device_list_items_eq, plist_dict_set_item]
  · exact ⟨(attached_plist_fields E d).1, (attached_plist_fields E d).2,
      attached_plist_properties E d⟩

/-- Witness of C15 as amended: the device list of scenario 3, asked for with tag 5. -/
theorem send_deviceList_entries_witness :
    (send_deviceList env_ok listening_usb_wifi client_C1 5).1 = none ∧
    (send_deviceList env_ok listening_usb_wifi client_C1 5).2.2 =
      [Event.send client_C1.ptr 5
        (plist.dict [("DeviceList", plist.array
          [getDevicePlist env_ok { usb_ABC with id := 2 },
           getDevicePlist env_ok { wifi_ABC with id := 3 }])])
        listening_usb_wifi.devices] :=
  ⟨congrArg Prod.fst (send_deviceList_entries env_ok listening_usb_wifi client_C1 5).1,
    congrArg (fun r => r.2.2) (send_deviceList_entries env_ok listening_usb_wifi client_C1 5).1⟩

/-- C18. `send_listenerList(cli, tag)` makes one call: it sends `cli`, with that tag,
one document `ListenerList: [...]` with one descriptor per registered client, listening
or not, in iteration order. Each descriptor has `Blacklisted = false`, `ConnType = 0`,
`BundleID`, `ProgName` and `kLibUSBMuxVersion` of that client, and `ID String` is the
decimal number of the client, "-", and its program name. -/
theorem send_listenerList_entries (E : Env) (m : Muxer) (cli : Client) (tag : Nat) :
    send_listenerList E m cli tag =
      (if E.send_throws cli.ptr tag
          (plist.dict [("ListenerList", plist.array (m.clients.map getClientPlist))]) = true
        then some send_exception else none,
       m,
       [Event.send cli.ptr tag
          (plist.dict [("ListenerList", plist.array (m.clients.map getClientPlist))])
          m.devices]) ∧
    (m.clients.map getClientPlist).length = m.clients.length ∧
    ∀ c : Client,
      plist_dict_get_item "Blacklisted" (getClientPlist c) = some (plist.bool false) ∧
      plist_dict_get_item "ConnType" (getClientPlist c) = some (plist.uint 0) ∧
      plist_dict_get_item "BundleID" (getClientPlist c) = some (plist.string c.bundleID) ∧
      plist_dict_get_item "ProgName" (getClientPlist c) = some (plist.string c.progName) ∧
      plist_dict_get_item "kLibUSBMuxVersion" (getClientPlist c) =
        some (plist.uint c.kLibUSBMuxVersion) ∧
      plist_dict_get_item "ID String" (getClientPlist c) =
        some (plist.string (Nat.repr c.number ++ "-" ++ c.progName)) := by
  refine ⟨?_, List.length_map _ _, fun c => ⟨?_, ?_, ?_, ?_, ?_, ?_⟩⟩
  · simp [send_listenerList, send_plist_pkt, listener_list_items_eq, plist_dict_set_item]
  all_goals
    simp [getClientPlist, plist_dict_set_item, plist_dict_get_item, List.lookup]
  rfl

/-- Witness of C18: the clients C1 (number 1, listening), C2 (number 2, not listening)
and C3 (number 42, listening) give three descriptors, with the `ID String`s "1-tool",
"2-other" and "42-third". -/
theorem send_listenerList_entries_witness :
    (send_listenerList env_ok three_clients client_C1 9).2.2 =
      [Event.send client_C1.ptr 9
        (plist.dict [("ListenerList", plist.array
          [getClientPlist client_C1, getClientPlist client_C2, getClientPlist client_C3])])
        three_clients.devices] ∧
    plist_dict_get_item "ID String" (getClientPlist client_C1) = some (plist.string "1-tool") ∧
    plist_dict_get_item "ID String" (getClientPlist client_C2) = some (plist.string "2-other") ∧
    plist_dict_get_item "ID String" (getClientPlist client_C3) = some (plist.string "42-third") :=
  ⟨congrArg (fun r => r.2.2) (send_listenerList_entries env_ok three_clients client_C1 9).1,
    rfl, rfl, rfl⟩

/-! ## C16, C20: the client registry -/

theorem erase_client_fd_none {fd : Int} {L : List Client} (h : ∀ c ∈ L, c.fd ≠ fd) :
    erase_client_fd fd L = (none, L) := by
  induction L with
  | nil => rfl
  | cons c rest ih =>
    have hc := h c (List.mem_cons_self _ _)
    have hr := ih (fun d hd => h d (List.mem_cons_of_mem _ hd))
    simp [erase_client_fd, hc, hr]

theorem erase_client_fd_some {fd : Int} {L : List Client} (h : ∃ c ∈ L, c.fd = fd) :
    ∃ c ∈ L, c.fd = fd ∧ erase_client_fd fd L = (some c, L.erase c) := by
  induction L with
  | nil =>
    obtain ⟨c, hc, _⟩ := h
    exact absurd hc (List.not_mem_nil c)
  | cons e rest ih =>
    by_cases he : e.fd = fd
    · exact ⟨e, List.mem_cons_self _ _, he, by simp [erase_client_fd, he]⟩
    · have hrest : ∃ c ∈ rest, c.fd = fd := by
        obtain ⟨c, hc, hfd⟩ := h
        rcases List.mem_cons.mp hc with rfl | hc
        · exact absurd hfd he
        · exact ⟨c, hc, hfd⟩
      obtain ⟨c, hc, hfd, hres⟩ := ih hrest
      have hne : e ≠ c := fun hec => he (hec ▸ hfd)
      refine ⟨c, List.mem_cons_of_mem _ hc, hfd, ?_⟩
      simp [erase_client_fd, he, hres, List.erase_cons, hne]

/-- C16. `delete_client(fd)`: when a registered client has that fd, one such client (the
first in iteration order) is removed from the registry, `kill()` is called once, on
that client and on no other, and every other client stays registered; when no
registered client has that fd, the state is unchanged and `kill()` is called on nobody.
When at most one registered client has that fd, a second `delete_client(fd)` calls
`kill()` on nobody. -/
theorem delete_client_fd_kills (m : Muxer) (fd : Int) :
    ((∃ c ∈ m.clients, c.fd = fd) →
      ∃ c ∈ m.clients, c.fd = fd ∧
        (delete_client_fd m fd).1 = { m with clients := m.clients.erase c } ∧
        (delete_client_fd m fd).2 = [Event.kill c.ptr] ∧
        kills_of (delete_client_fd m fd).2 = [c.ptr] ∧
        (delete_client_fd m fd).1.clients.length + 1 = m.clients.length ∧
        (∀ d ∈ m.clients, d ≠ c → d ∈ (delete_client_fd m fd).1.clients)) ∧
    ((∀ c ∈ m.clients, c.fd ≠ fd) →
      (delete_client_fd m fd).1 = m ∧ (delete_client_fd m fd).2 = []) ∧
    ((m.clients.filter (fun c => c.fd = fd)).length ≤ 1 →
      (delete_client_fd (delete_client_fd m fd).1 fd).2 = [] ∧
      (delete_client_fd (delete_client_fd m fd).1 fd).1 = (delete_client_fd m fd).1) := by
  refine ⟨?_, ?_, ?_⟩
  · intro h
    obtain ⟨c, hc, hfd, hres⟩ := erase_client_fd_some h
    refine ⟨c, hc, hfd, ?_, ?_, ?_, ?_, ?_⟩
    · simp [delete_client_fd, hres]
    · simp [delete_client_fd, hres]
    · simp [delete_client_fd, hres, kills_of]
    · simp only [delete_client_fd, hres]
      rw [List.length_erase_of_mem hc]
      have := List.length_pos_of_mem hc
      omega
    · intro d hd hne
      simp only [delete_client_fd, hres]
      exact (List.mem_erase_of_ne hne).mpr hd
  · intro h
    simp [delete_client_fd, erase_client_fd_none h]
  · intro hcount
    by_cases h : ∃ c ∈ m.clients, c.fd = fd
    · obtain ⟨c, hc, hfd, hres⟩ := erase_client_fd_some h
      have hnone : ∀ d ∈ m.clients.erase c, d.fd ≠ fd := by
        intro d hd hdfd
        have hsub : ((m.clients.erase c).filter (fun c => c.fd = fd)).length = 0 := by
          have hperm := List.perm_cons_erase hc
          have hlen := (hperm.filter (fun c => decide (c.fd = fd))).length_eq
          simp only [List.filter_cons, hfd, decide_True, if_true, List.length_cons] at hlen
          omega
        have hmem : d ∈ (m.clients.erase c).filter (fun c => c.fd = fd) := by
          simp [List.mem_filter, hd, hdfd]
        rw [List.length_eq_zero] at hsub
        rw [hsub] at hmem
        exact absurd hmem (List.not_mem_nil d)
      have h1 : (delete_client_fd m fd).1 = { m with clients := m.clients.erase c } := by
        simp [delete_client_fd, hres]
      rw [h1]
      simp [delete_client_fd, erase_client_fd_none hnone]
    · have hall : ∀ c ∈ m.clients, c.fd ≠ fd := fun c hc hfd => h ⟨c, hc, hfd⟩
      have h1 : (delete_client_fd m fd).1 = m := by
        simp [delete_client_fd, erase_client_fd_none hall]
      rw [h1]
      simp [delete_client_fd, erase_client_fd_none hall]

/-- Witness of C16: of the clients C1 (fd 7), C2 (fd 8) and C3 (fd 9), `delete_client(8)`
removes C2 and kills it; a second `delete_client(8)` and `delete_client(5)` kill
nobody. -/
theorem delete_client_fd_kills_witness :
    (delete_client_fd three_clients 8).1.clients = [client_C1, client_C3] ∧
    kills_of (delete_client_fd three_clients 8).2 = [client_C2.ptr] ∧
    (delete_client_fd (delete_client_fd three_clients 8).1 8).2 = [] ∧
    (delete_client_fd three_clients 5).1 = three_clients ∧
    (delete_client_fd three_clients 5).2 = [] :=
  ⟨by decide, by decide,
    ((delete_client_fd_kills three_clients 8).2.2 (by decide)).1,
    ((delete_client_fd_kills three_clients 5).2.1 (by decide)).1,
    ((delete_client_fd_kills three_clients 5).2.1 (by decide)).2⟩

theorem clients_erase_clients_insert {x : Client} {L : List Client}
    (h : ∀ c ∈ L, c.ptr ≠ x.ptr) : clients_erase x.ptr (clients_insert x L) = L := by
  induction L with
  | nil => simp [clients_insert, clients_erase]
  | cons e rest ih =>
    have he : e.ptr ≠ x.ptr := h e (List.mem_cons_self _ _)
    have hr := ih (fun d hd => h d (List.mem_cons_of_mem _ hd))
    unfold clients_insert
    split
    · simp [clients_erase]
    · rw [if_neg (fun hc => he hc.symm)]
      simp [clients_erase, he, hr]

theorem clients_contains_clients_insert (x : Client) (L : List Client) :
    clients_contains x.ptr (clients_insert x L) = true := by
  induction L with
  | nil => simp [clients_insert, clients_contains]
  | cons e rest ih =>
    unfold clients_insert
    split
    · simp [clients_contains]
    · split
      · simp [clients_contains]
      · rename_i h1 h2
        have : e.ptr ≠ x.ptr := fun h => h2 h.symm
        simp [clients_contains, this, ih]

theorem self_mem_clients_insert (x : Client) (L : List Client) : x ∈ clients_insert x L := by
  induction L with
  | nil => simp [clients_insert]
  | cons e rest ih =>
    unfold clients_insert
    split
    · simp
    · split
      · simp
      · simp [ih]

theorem mem_clients_insert_of_ne {x d : Client} {L : List Client} (hd : d ∈ L)
    (hne : d.ptr ≠ x.ptr) : d ∈ clients_insert x L := by
  induction L with
  | nil => exact absurd hd (List.not_mem_nil d)
  | cons e rest ih =>
    unfold clients_insert
    split
    · exact List.mem_cons_of_mem _ hd
    · split
      · rename_i heq
        rcases List.mem_cons.mp hd with rfl | hd
        · exact absurd heq.symm hne
        · exact List.mem_cons_of_mem _ hd
      · rcases List.mem_cons.mp hd with rfl | hd
        · exact List.mem_cons_self _ _
        · exact List.mem_cons_of_mem _ (ih hd)

/-- C20. `add_client(cli)` for a client that is not registered: when `startLoop` fails,
`add_client` fails with the same exception, the client registry is what it was before
(so `cli` is not registered and every client registered before still is), and `kill()`
has been called once, on `cli`; when `startLoop` succeeds, `add_client` succeeds, `cli`
is registered together with the clients registered before, and `kill()` is not
called. -/
theorem add_client_start_failure (E : Env) (m : Muxer) (cli : Client)
    (hnew : ∀ c ∈ m.clients, c.ptr ≠ cli.ptr) :
    (∀ e, E.client_startLoop cli = some e →
      (add_client E m cli).1 = some e ∧
      (add_client E m cli).2.1 = m ∧
      (∀ c ∈ (add_client E m cli).2.1.clients, c.ptr ≠ cli.ptr) ∧
      (add_client E m cli).2.2 = [Event.kill cli.ptr] ∧
      kills_of (add_client E m cli).2.2 = [cli.ptr]) ∧
    (E.client_startLoop cli = none →
      (add_client E m cli).1 = none ∧
      cli ∈ (add_client E m cli).2.1.clients ∧
      (∀ c ∈ m.clients, c ∈ (add_client E m cli).2.1.clients) ∧
      (add_client E m cli).2.1.devices = m.devices ∧
      (add_client E m cli).2.2 = [] ∧
      kills_of (add_client E m cli).2.2 = []) := by
  refine ⟨?_, ?_⟩
  · intro e he
    have hstate : (add_client E m cli).2.1 = m := by
      simp [add_client, he, delete_client, clients_contains_clients_insert,
        clients_erase_clients_insert hnew]
    refine ⟨?_, hstate, ?_, ?_, ?_⟩
    · simp [add_client, he]
    · rw [hstate]; exact hnew
    · simp [add_client, he, delete_client, clients_contains_clients_insert]
    · simp [add_client, he, delete_client, clients_contains_clients_insert, kills_of]
  · intro he
    refine ⟨?_, ?_, ?_, ?_, ?_, ?_⟩
    · simp [add_client, he]
    · simp only [add_client, he]
      exact self_mem_clients_insert _ _
    · intro c hc
      simp only [add_client, he]
      exact mem_clients_insert_of_ne hc (hnew c hc)
    · simp [add_client, he]
    · simp [add_client, he]
    · simp [add_client, he, kills_of]

/-- Witness of C20: a fourth client whose loop does not start is added to C1, C2, C3:
`add_client` fails, the registry is as before, and the client has been killed once. With
a loop that starts, the client is registered and nobody is killed. -/
theorem add_client_start_failure_witness :
    (add_client env_client_fails three_clients { client_C2 with ptr := 650, fd := 10 }).1 =
      some { code := 2, what := "startLoop" } ∧
    (add_client env_client_fails three_clients { client_C2 with ptr := 650, fd := 10 }).2.1 =
      three_clients ∧
    kills_of
      (add_client env_client_fails three_clients { client_C2 with ptr := 650, fd := 10 }).2.2 =
      [650] ∧
    (add_client env_ok three_clients { client_C2 with ptr := 650, fd := 10 }).2.1.clients =
      [client_C1, client_C2, { client_C2 with ptr := 650, fd := 10 }, client_C3] ∧
    kills_of (add_client env_ok three_clients { client_C2 with ptr := 650, fd := 10 }).2.2 = [] :=
  ⟨((add_client_start_failure env_client_fails three_clients
      { client_C2 with ptr := 650, fd := 10 } (by decide)).1 _ rfl).1,
    ((add_client_start_failure env_client_fails three_clients
      { client_C2 with ptr := 650, fd := 10 } (by decide)).1 _ rfl).2.1,
    ((add_client_start_failure env_client_fails three_clients
      { client_C2 with ptr := 650, fd := 10 } (by decide)).1 _ rfl).2.2.2.2,
    by decide, by decide⟩

/-! ## C17: the backlog for a new listener -/

theorem notify_alldevices_loop_eq (E : Env) (cli : Client) (regs L : List Device) :
    notify_alldevices_loop E cli regs L =
      (none, L.map (fun d => Event.send cli.ptr 0 (getDevicePlist E d) regs)) := by
  induction L with
  | nil => rfl
  | cons d rest ih => simp [notify_alldevices_loop, ih, swallow, send_plist_pkt]

theorem sends_to_map_send (E : Env) (p q : Nat) (regs L : List Device) :
    sends_to p (L.map (fun d => Event.send q 0 (getDevicePlist E d) regs)) =
      if q = p then L.map (fun d => (0, getDevicePlist E d, regs)) else [] := by
  induction L with
  | nil => simp [sends_to]
  | cons d rest ih =>
    by_cases h : q = p
    · simp [sends_to, h] at ih ⊢
      exact ih
    · simp [sends_to, h] at ih ⊢
      exact ih

/-- C17. `notify_alldevices(cli)` for a listening client, whatever sends fail: no
exception leaves it, the state is unchanged, and the calls made are one send to `cli`
per registered device, in iteration order, with tag 0 and the `Attached` document of
that device; no other client is sent anything, and with an empty registry nothing is
sent. -/
theorem notify_alldevices_backlog (E : Env) (m : Muxer) (cli : Client)
    (hl : cli.isListening = true) :
    (notify_alldevices E m cli).1 = none ∧
    (notify_alldevices E m cli).2.1 = m ∧
    (notify_alldevices E m cli).2.2 =
      m.devices.map (fun d => Event.send cli.ptr 0 (getDevicePlist E d) m.devices) ∧
    sends_to cli.ptr (notify_alldevices E m cli).2.2 =
      m.devices.map (fun d => (0, getDevicePlist E d, m.devices)) ∧
    (sends_to cli.ptr (notify_alldevices E m cli).2.2).length = m.devices.length ∧
    (∀ p, p ≠ cli.ptr → sends_to p (notify_alldevices E m cli).2.2 = []) ∧
    (∀ d : Device,
      plist_dict_get_item "MessageType" (getDevicePlist E d) = some (plist.string "Attached") ∧
      plist_dict_get_item "DeviceID" (getDevicePlist E d) = some (plist.uint d.id)) ∧
    (m.devices = [] → (notify_alldevices E m cli).2.2 = []) := by
  have hev : (notify_alldevices E m cli).2.2 =
      m.devices.map (fun d => Event.send cli.ptr 0 (getDevicePlist E d) m.devices) := by
    simp [notify_alldevices, hl, notify_alldevices_loop_eq]
  refine ⟨?_, ?_, hev, ?_, ?_, ?_, fun d => attached_plist_fields E d, ?_⟩
  · simp [notify_alldevices, hl, notify_alldevices_loop_eq]
  · simp [notify_alldevices, hl]
  · rw [hev, sends_to_map_send, if_pos rfl]
  · rw [hev, sends_to_map_send, if_pos rfl, List.length_map]
  · intro p hp
    rw [hev, sends_to_map_send, if_neg (fun h => hp h.symm)]
  · intro h0
    rw [hev, h0]
    rfl

/-- Witness of C17 (scenario 2 and after scenario 3): with no device registered the
listening client C1 is sent nothing; with the two devices of scenario 3 it is sent two
`Attached` documents, also when every send fails, and C3 is sent nothing. -/
theorem notify_alldevices_backlog_witness :
    (notify_alldevices env_ok listening_empty client_C1).2.2 = [] ∧
    (notify_alldevices env_send_fails three_clients client_C1).1 = none ∧
    sends_to client_C1.ptr (notify_alldevices env_send_fails three_clients client_C1).2.2 =
      [(0, getDevicePlist env_send_fails { usb_ABC with id := 2 }, three_clients.devices),
       (0, getDevicePlist env_send_fails { wifi_ABC with id := 3 }, three_clients.devices)] ∧
    sends_to client_C3.ptr (notify_alldevices env_send_fails three_clients client_C1).2.2 =
      [] :=
  ⟨(notify_alldevices_backlog env_ok listening_empty client_C1 rfl).2.2.2.2.2.2.2 rfl,
    (notify_alldevices_backlog env_send_fails three_clients client_C1 rfl).1,
    (notify_alldevices_backlog env_send_fails three_clients client_C1 rfl).2.2.2.1,
    (notify_alldevices_backlog env_send_fails three_clients client_C1 rfl).2.2.2.2.2.1
      client_C3.ptr (by decide)⟩

/-! ## C19: Wi-Fi devices by MAC address -/

theorem substr0_find_at_cons {ch : Char} (t : List Char) (h : ch ≠ '@') :
    substr0 (ch :: t) (find_at (ch :: t)) = ch :: substr0 t (find_at t) := by
  show substr0 (ch :: t)
      (if ch = '@' then some 0
        else match find_at t with
          | some n => some (n + 1)
          | none => none) = ch :: substr0 t (find_at t)
  rw [if_neg h]
  cases find_at t <;> rfl

/-- The part of a name before its first '@': `M` is that part exactly when it has no
'@' and the name is `M`, or `M` followed by '@' and more. -/
theorem substr0_find_at_eq_iff (s M : List Char) :
    substr0 s (find_at s) = M ↔
      '@' ∉ M ∧ (s = M ∨ ∃ rest, s = M ++ '@' :: rest) := by
  induction s generalizing M with
  | nil =>
    simp only [find_at, substr0]
    constructor
    · intro h
      subst h
      exact ⟨List.not_mem_nil _, Or.inl rfl⟩
    · rintro ⟨_, h | ⟨rest, h⟩⟩
      · exact h
      · cases M <;> simp at h
  | cons ch t ih =>
    by_cases hch : ch = '@'
    · subst hch
      simp only [find_at, if_true, substr0, List.take_zero]
      constructor
      · intro h
        subst h
        exact ⟨List.not_mem_nil _, Or.inr ⟨t, rfl⟩⟩
      · rintro ⟨hno, h | ⟨rest, h⟩⟩
        · subst h
          exact absurd (List.mem_cons_self _ _) hno
        · cases M with
          | nil => rfl
          | cons x M' =>
            simp only [List.cons_append, List.cons.injEq] at h
            exact absurd (h.1 ▸ List.mem_cons_self _ _) hno
    · rw [substr0_find_at_cons t hch]
      cases M with
      | nil =>
        constructor
        · intro h
          exact absurd h (by simp)
        · rintro ⟨_, h | ⟨rest, h⟩⟩
          · exact absurd h (by simp)
          · simp only [List.nil_append, List.cons.injEq] at h
            exact absurd h.1 hch
      | cons x M' =>
        simp only [List.cons.injEq, List.mem_cons, not_or, List.cons_append, ih M']
        constructor
        · rintro ⟨rfl, hno, h⟩
          exact ⟨⟨fun hc => hch hc.symm, hno⟩, by
            rcases h with h | ⟨rest, h⟩
            · exact Or.inl ⟨rfl, h⟩
            · exact Or.inr ⟨rest, rfl, h⟩⟩
        · rintro ⟨⟨_, hno⟩, h | ⟨rest, h⟩⟩
          · exact ⟨h.1, hno, Or.inl h.2⟩
          · exact ⟨h.1, hno, Or.inr ⟨rest, h.2⟩⟩

/-- C19. `have_wifi_device(mac)` is true if and only if a registered Wi-Fi device has a
service name whose part before the first '@' (the whole name when it has no '@') is
`mac`: `mac` has no '@', and the name is `mac` or `mac` followed by '@' and more. USB
devices do not count. -/
theorem have_wifi_device_iff (mac : String) (devs : List Device) :
    have_wifi_device mac devs = true ↔
      ∃ d ∈ devs, d.conntype = MUXCONN_WIFI ∧ '@' ∉ mac.data ∧
        (d.serviceName.data = mac.data ∨
          ∃ rest, d.serviceName.data = mac.data ++ '@' :: rest) := by
  have hkey : ∀ d : Device,
      String.mk (substr0 d.serviceName.data (find_at d.serviceName.data)) = mac ↔
        '@' ∉ mac.data ∧ (d.serviceName.data = mac.data ∨
          ∃ rest, d.serviceName.data = mac.data ++ '@' :: rest) := by
    intro d
    rw [← substr0_find_at_eq_iff]
    constructor
    · intro h; rw [← h]
    · intro h; rw [h]
  induction devs with
  | nil => simp [have_wifi_device]
  | cons e rest ih =>
    unfold have_wifi_device
    split
    · rename_i he
      simp only [true_iff]
      exact ⟨e, List.mem_cons_self _ _, he.1, (hkey e).mp he.2⟩
    · rename_i he
      constructor
      · intro h
        obtain ⟨d, hd, hh⟩ := ih.mp h
        exact ⟨d, List.mem_cons_of_mem _ hd, hh⟩
      · rintro ⟨d, hd, hw, h⟩
        rcases List.mem_cons.mp hd with rfl | hd
        · exact absurd ⟨hw, (hkey d).mpr h⟩ he
        · exact ih.mpr ⟨d, hd, hw, h⟩

/-- Witness of C19: after scenario 3, the Wi-Fi device with service name
"aa:bb:cc:dd:ee:ff@fe80::1" is found by "aa:bb:cc:dd:ee:ff", and not by the serial or by
the whole service name. -/
theorem have_wifi_device_iff_witness :
    have_wifi_device "aa:bb:cc:dd:ee:ff" after_usb_wifi.devices = true ∧
    have_wifi_device "ABC" after_usb_wifi.devices = false ∧
    have_wifi_device "aa:bb:cc:dd:ee:ff@fe80::1" after_usb_wifi.devices = false ∧
    ∃ d ∈ after_usb_wifi.devices, d.conntype = MUXCONN_WIFI ∧
      '@' ∉ ("aa:bb:cc:dd:ee:ff" : String).data ∧
      (d.serviceName.data = ("aa:bb:cc:dd:ee:ff" : String).data ∨
        ∃ rest, d.serviceName.data = ("aa:bb:cc:dd:ee:ff" : String).data ++ '@' :: rest) :=
  ⟨by decide, by decide, by decide,
    (have_wifi_device_iff "aa:bb:cc:dd:ee:ff" after_usb_wifi.devices).mp (by decide)⟩

/-! ## C21, C22: the scan at `retryID` and `_newid` -/

/-- C21 (code at the failing input). "B" is registered in slot 2 and "A" in slot 1,
iterated in this order, and `_newid` is 1: a new USB device "X" (no peer) is given slot
2, which "B" uses, and not slot 3, the smallest free slot; the one traversal has passed
"B" before `_newid` becomes 2. The same happens in a state reached from a fresh Muxer:
with the slots 2, 1 and `MAXID` in use and `_newid = MAXID`, the scan wraps, starts
again from 1, and gives the new device slot 2. -/
theorem scan_assigns_used_slot :
    two_slots_reversed.newid = 1 ∧
    two_slots_reversed.devices.map (fun d => d.id >>> 1) = [2, 1] ∧
    (∀ d ∈ two_slots_reversed.devices, d.serial ≠ (wrap_dev true).serial) ∧
    (add_device env_ok two_slots_reversed (wrap_dev true)).map
      (fun r => (r.dev.id >>> 1, r.muxer.devices.map (fun d => d.id >>> 1))) =
      some (2, [2, 1, 2]) ∧
    ∃ n b, ReachableUnique n (wrap_state MAXID b) ∧
      (wrap_state MAXID b).newid = MAXID ∧
      (wrap_state MAXID b).devices.map (fun d => d.id >>> 1) = [2, 1, MAXID] ∧
      (∀ d ∈ (wrap_state MAXID b).devices, d.serial ≠ (wrap_dev (!b)).serial) ∧
      (add_device env_ok (wrap_state MAXID b) (wrap_dev (!b))).map
        (fun r => (r.dev.id >>> 1, r.muxer.devices.map (fun d => d.id >>> 1))) =
        some (2, if b then [2, 1, MAXID, 2] else [2, 1, 2, MAXID]) :=
  ⟨rfl, by decide, by decide, by decide,
    match reachableUnique_wrap MAXID (by decide) (le_refl _) with
    | ⟨n, true, h⟩ => ⟨n, true, h, rfl, by decide, by decide, by decide⟩
    | ⟨n, false, h⟩ => ⟨n, false, h, rfl, by decide, by decide, by decide⟩⟩

theorem add_device_some_of_alloc_id {E : Env} {m : Muxer} {dev : Device} {x : Nat × Nat}
    (ha : alloc_id 2 m dev = some x) : ∃ r, add_device E m dev = some r := by
  unfold add_device add_device_fuel
  rw [ha]
  simp only
  split
  · exact ⟨_, rfl⟩
  · exact ⟨_, rfl⟩

/-- Counterexample to C22: the first device added to a fresh Muxer gets slot 1 and
`_newid` is 1 afterwards, not 2; when that device is removed, the next device added gets
slot 1 again. -/
theorem newid_after_allocation_counterexample :
    (add_device env_ok (Muxer.init false) usb_ABC).map
      (fun r => (r.dev.id >>> 1, r.muxer.newid)) = some (1, 1) ∧
    (add_device env_ok (Muxer.init false) usb_ABC).map (fun r => r.muxer.newid) ≠
      (add_device env_ok (Muxer.init false) usb_ABC).map (fun r => (r.dev.id >>> 1) + 1) ∧
    (delete_device after_usb { usb_ABC with id := 2 }).1.devices = [] ∧
    (add_device env_ok (delete_device after_usb { usb_ABC with id := 2 }).1 wrap_A).map
      (fun r => (r.dev.id >>> 1, r.muxer.newid)) = some (1, 1) :=
  ⟨by decide, by decide, by decide, by decide⟩

/-- C22, as amended. When `add_device` allocates a fresh slot `s` for the new device (no
device with the same serial and the other connection type is registered; fewer than
`MAXID` devices are registered, so that the call returns), `_newid` after the call is
`s`, the slot just assigned, and the id of the device is `(_newid << 1) | flag`. -/
theorem newid_after_allocation (E : Env) (m : Muxer) (dev : Device)
    (hpeer : ∀ d ∈ m.devices,
      ¬ (d.conntype = other_conntype dev.conntype ∧ dev.serial = d.serial))
    (hlen : m.devices.length < MAXID) :
    ∃ r, add_device E m dev = some r ∧
      r.muxer.newid = r.dev.id >>> 1 ∧
      r.dev.id = (r.muxer.newid <<< 1) ||| wifi_flag dev.conntype := by
  have h0 : clear_bit0 (id_for_device dev.serial (other_conntype dev.conntype) m.devices) = 0 := by
    rw [id_for_device_of_none hpeer]; decide
  obtain ⟨n, hn⟩ := retryID_some_of_length
      (L := set_id dev.ptr 0 m.devices) (by rw [set_id_length]; exact hlen) m.newid
  have ha : alloc_id 2 m dev = some (n <<< 1, n) := by
    unfold alloc_id
    simp only [h0, if_true, hn]
  obtain ⟨r, hr⟩ := add_device_some_of_alloc_id (E := E) ha
  obtain ⟨id1, newid, ha', hdev, hnid, _⟩ := add_device_result hr
  rw [ha] at ha'
  simp only [Option.some.injEq, Prod.mk.injEq] at ha'
  obtain ⟨rfl, rfl⟩ := ha'
  refine ⟨r, hr, ?_, ?_⟩
  · rw [hdev, hnid]
    simp only [shr1, shl1, slot_of_id]
  · rw [hdev, hnid]

/-- Witness of C22 as amended: with the USB device "ABC" in slot 1 and `_newid = 1`,
the device "A" gets slot 2 and `_newid` is 2 afterwards. -/
theorem newid_after_allocation_witness :
    (add_device env_ok after_usb wrap_A).map (fun r => (r.dev.id >>> 1, r.muxer.newid)) =
      some (2, 2) ∧
    ∃ r, add_device env_ok after_usb wrap_A = some r ∧
      r.muxer.newid = r.dev.id >>> 1 ∧
      r.dev.id = (r.muxer.newid <<< 1) ||| wifi_flag wrap_A.conntype :=
  ⟨by decide, newid_after_allocation env_ok after_usb wrap_A (by decide) (by decide)⟩

/-! ## C23: the removal of handles in `loopEvent` -/

theorem length_filter_ne_of_nodup {v : List Nat} {rc : Nat} (hnd : v.Nodup) (hrc : rc ∈ v) :
    (v.filter (fun x => x ≠ rc)).length + 1 = v.length := by
  induction v with
  | nil => exact absurd hrc (List.not_mem_nil rc)
  | cons x t ih =>
    have hx := (List.nodup_cons.mp hnd).1
    have ht := (List.nodup_cons.mp hnd).2
    by_cases hxr : x = rc
    · subst hxr
      have hall : t.filter (fun y => decide (y ≠ x)) = t := by
        rw [List.filter_eq_self]
        intro y hy
        have hyx : y ≠ x := fun hyx => hx (hyx ▸ hy)
        simp [hyx]
      have hf : (x :: t).filter (fun y => decide (y ≠ x)) =
          t.filter (fun y => decide (y ≠ x)) := List.filter_cons_of_neg (by simp)
      rw [hf, hall]
      rfl
    · have hrt : rc ∈ t := by
        rcases List.mem_cons.mp hrc with h | h
        · exact absurd h.symm hxr
        · exact h
      have h1 := ih ht hrt
      have hf : (x :: t).filter (fun y => decide (y ≠ rc)) =
          x :: t.filter (fun y => decide (y ≠ rc)) := List.filter_cons_of_pos (by simp [hxr])
      rw [hf]
      simp only [List.length_cons]
      omega

/-- What the body of the loop does for a handle `rc` of a pool without repetitions:
`rc` leaves the pool, and the handle whose poll entry is erased and which is
deallocated is the last handle of the pool, whichever handle `rc` is. -/
theorem remove_client_of_mem (sockfd : Nat → Int) (v : List Nat) (pfds : List Int)
    (dl : List Nat) (rc : Nat) (hnd : v.Nodup) (hrc : rc ∈ v) :
    remove_client sockfd rc (v, pfds, dl) =
      match v.getLast? with
      | none => none
      | some last =>
        match erase_pfd (sockfd last) pfds with
        | none => none
        | some p => some (v.filter (fun x => x ≠ rc), p, dl ++ [last]) := by
  have hk := length_filter_ne_of_nodup hnd hrc
  have hlast : v.getLast? = v[(v.filter (fun x => x ≠ rc)).length]? := by
    rw [List.getLast?_eq_getElem?]
    congr 1
    omega
  have hget : (v.filter (fun x => x ≠ rc) ++ v.drop (v.filter (fun x => x ≠ rc)).length)[
      (v.filter (fun x => x ≠ rc)).length]? = v.getLast? := by
    rw [List.getElem?_append_right (le_refl _), Nat.sub_self, List.getElem?_drop, hlast]
    rfl
  have hlen : (v.filter (fun x => x ≠ rc) ++ v.drop (v.filter (fun x => x ≠ rc)).length).length
      ≠ (v.filter (fun x => x ≠ rc)).length := by
    simp only [List.length_append, List.length_drop]
    omega
  unfold remove_client std_remove
  simp only [ne_eq]
  simp only [ne_eq] at hlen hget
  rw [if_pos (fun h => hlen h.symm), hget]
  cases v.getLast? with
  | none => rfl
  | some last =>
    simp only [List.take_left' rfl]

/-- C23 (code at the failing input). The pool holds the handles 1, 2, 3, each with its
poll entry, and handle 1 is to be removed: handle 1 leaves the pool, but the handle
deallocated is 3, the last of the pool (`std::remove` returns the position after the
elements kept, and `*target` is what that position holds), and the poll entry erased is
that of 3; handle 1 is not deallocated and keeps its poll entry. With two devices in
discovery (resolve handles 1, 2, getaddr handles 3, 4) and 3 and 1 to be removed, 4 is
deallocated for 3, and then for 1 the poll entry of 4 is looked for again and the
assertion fails. With one device in discovery (handles 1, 2; 2 and 1 to be removed, in
this order) the handle to remove is the last of the pool each time, and 2 and 1 are
deallocated. In general the handle deallocated for a handle of the pool is the last
handle of the pool. -/
theorem drain_deallocates_last_handle :
    std_remove [1, 2, 3] 1 = ([2, 3, 3], 2) ∧
    drain_removeClients sockfd_10 pool_three =
      some ({ resolveClients := [2, 3], pfds := [5, 11, 12], removeClients := [] }, [3]) ∧
    drain_removeClients sockfd_10 { pool_two_devices with removeClients := [3] } =
      some ({ resolveClients := [1, 2, 4], pfds := [5, 11, 12, 13], removeClients := [] },
        [4]) ∧
    drain_removeClients sockfd_10 pool_two_devices = none ∧
    drain_removeClients sockfd_10 pool_one_device =
      some ({ resolveClients := [], pfds := [5], removeClients := [] }, [2, 1]) ∧
    drain_removeClients sockfd_10 { pool_one_device with removeClients := [1, 2] } = none ∧
    ∀ (sockfd : Nat → Int) (v : List Nat) (pfds : List Int) (dl : List Nat) (rc : Nat),
      v.Nodup → rc ∈ v →
      remove_client sockfd rc (v, pfds, dl) =
        match v.getLast? with
        | none => none
        | some last =>
          match erase_pfd (sockfd last) pfds with
          | none => none
          | some p => some (v.filter (fun x => x ≠ rc), p, dl ++ [last]) :=
  ⟨by decide, by decide, by decide, by decide, by decide, by decide,
    fun sockfd v pfds dl rc hnd hrc => remove_client_of_mem sockfd v pfds dl rc hnd hrc⟩

end usbmuxd2
